import Mathlib

/-!
# dlls/mmdevapi/client.c — the audio client core

A shallow embedding of the stream operations of `client.c` (buffer exchange,
stream queries, format negotiation, client properties, stream volume, lifecycle,
service lookup) and the properties proved about them.

Conventions of the embedding

* A C pointer or handle is an `Option`: `none` is `NULL`, `some v` is a valid
  pointer whose target currently holds `v`.  A function that stores through an
  out-pointer returns the pointer's target after the call.
* `WINE_UNIX_CALL(f, &params)` is a call into the audio engine.  The engine is
  external: its replies are a parameter (`Env`), and every call that is issued
  is appended to the log `World.calls`, oldest first.
* An access outside an array, or through a null structure pointer, has no
  defined result; the functions that can perform one return `Option`, with
  `none` for that case.
-/

namespace MMDevAPI

/-! ## Scalars -/

/-- A C `float`: an IEEE-754 binary32 bit pattern (bit 31 sign, bits 30..23
exponent, bits 22..0 fraction). -/
structure float where
  bits : Nat
deriving DecidableEq, Repr

namespace float

/-- The biased exponent field. -/
def exponent (f : float) : Nat := (f.bits / 2 ^ 23) % 256

/-- The fraction field. -/
def fraction (f : float) : Nat := f.bits % 2 ^ 23

/-- The sign bit. -/
def sign (f : float) : Bool := (f.bits / 2 ^ 31) % 2 == 1

/-- Not-a-number: exponent all ones and a non-zero fraction. -/
def isNaN (f : float) : Bool := f.exponent == 255 && f.fraction != 0

/-- The position of a non-NaN value in the order of the extended reals: the
magnitude bits, negated when the sign bit is set (so both zeros are at 0). -/
def ord (f : float) : Int :=
  if f.sign then -((f.bits % 2 ^ 31 : Nat) : Int) else ((f.bits % 2 ^ 31 : Nat) : Int)

/-- The C comparison `a < b` on floats: false as soon as one side is NaN. -/
def lt (a b : float) : Bool := !a.isNaN && !b.isNaN && decide (a.ord < b.ord)

/-- The C comparison `a > b` on floats. -/
def gt (a b : float) : Bool := lt b a

end float

/-- The literal `0.0f`. -/
def f0 : float := ⟨0x00000000⟩

/-- The literal `1.0f`. -/
def f1 : float := ⟨0x3F800000⟩

abbrev HRESULT := Int
abbrev UINT32 := Nat
abbrev UINT64 := Nat
abbrev DWORD := Nat
abbrev HANDLE := Nat
abbrev stream_handle := Nat
abbrev BYTE_ptr := Nat
abbrev REFERENCE_TIME := Int
abbrev AUDCLNT_SHAREMODE := Nat
abbrev BOOL := Int

/-- A C pointer to a cell of type `α`: `none` is `NULL`, `some v` points at a
cell that holds `v`. -/
abbrev ptr (α : Type) := Option α

/-- The assignment `*p = v` through a pointer known to be non-null; a null
pointer is left as it is. -/
def ptr.store {α : Type} (p : ptr α) (v : α) : ptr α := p.map (fun _ => v)

/-! ## Status codes

The `HRESULT` values that `client.c` returns.  They are declared in `winerror.h`
and `audioclient.h`, outside `client.c`; the values below are the ones of the
Windows ABI, written as signed 32-bit numbers. -/

def S_OK : HRESULT := 0
def S_FALSE : HRESULT := 1
def E_NOTIMPL : HRESULT := 0x80004001 - 2 ^ 32
def E_NOINTERFACE : HRESULT := 0x80004002 - 2 ^ 32
def E_POINTER : HRESULT := 0x80004003 - 2 ^ 32
def E_FAIL : HRESULT := 0x80004005 - 2 ^ 32
def E_OUTOFMEMORY : HRESULT := 0x8007000E - 2 ^ 32
def E_INVALIDARG : HRESULT := 0x80070057 - 2 ^ 32
def AUDCLNT_E_NOT_INITIALIZED : HRESULT := 0x88890001 - 2 ^ 32
def AUDCLNT_E_WRONG_ENDPOINT_TYPE : HRESULT := 0x88890003 - 2 ^ 32
def AUDCLNT_E_ENDPOINT_OFFLOAD_NOT_CAPABLE : HRESULT := 0x88890022 - 2 ^ 32

/-- The macro `SUCCEEDED(hr)`, that is `(HRESULT)(hr) >= 0`. -/
def SUCCEEDED (hr : HRESULT) : Bool := decide (0 ≤ hr)

/-! ## Data model -/

/-- The data-flow direction of an endpoint (`EDataFlow`). -/
inductive EDataFlow
  | eRender
  | eCapture
  | eAll
deriving DecidableEq, Repr

/-- The fields of `struct audio_session` that `client.c` reads. -/
structure audio_session where
  master_vol : float
  mute : Bool
  channel_vols : List float
deriving DecidableEq, Repr

/-- The session wrapper object handed out for the session-level views: its
identity and its own reference count. -/
structure audio_session_wrapper where
  id : Nat
  ref : Nat
deriving DecidableEq, Repr

/-- The fields of `struct audio_client` that `client.c` uses.  `vols` is the
array behind the pointer `This->vols`, `session` the structure behind the
pointer `This->session`, `device_name` stands for the string behind
`This->device_name`. -/
structure audio_client where
  device_name : Nat
  dataflow : EDataFlow
  stream : Option stream_handle
  channel_count : UINT32
  vols : List float
  session : Option audio_session
  timer_thread : Option HANDLE
  session_wrapper : Option audio_session_wrapper
  ref : Nat
deriving DecidableEq, Repr

/-! ## Engine call parameters -/

structure get_capture_buffer_params where
  stream : stream_handle
  data : ptr (Option BYTE_ptr)
  frames : ptr UINT32
  flags : ptr DWORD
  devpos : ptr UINT64
  qpcpos : ptr UINT64
deriving DecidableEq, Repr

structure release_capture_buffer_params where
  stream : stream_handle
  done : UINT32
deriving DecidableEq, Repr

structure get_next_packet_size_params where
  stream : stream_handle
  frames : ptr UINT32
deriving DecidableEq, Repr

structure get_render_buffer_params where
  stream : stream_handle
  frames : UINT32
  data : ptr (Option BYTE_ptr)
deriving DecidableEq, Repr

structure release_render_buffer_params where
  stream : stream_handle
  written_frames : UINT32
  flags : DWORD
deriving DecidableEq, Repr

structure set_volumes_params where
  stream : Option stream_handle
  master_volume : float
  volumes : List float
  session_volumes : List float
deriving DecidableEq, Repr

structure get_buffer_size_params where
  stream : stream_handle
  frames : ptr UINT32
deriving DecidableEq, Repr

structure get_latency_params where
  stream : stream_handle
  latency : ptr REFERENCE_TIME
deriving DecidableEq, Repr

structure get_current_padding_params where
  stream : stream_handle
  padding : ptr UINT32
deriving DecidableEq, Repr

structure set_event_handle_params where
  stream : stream_handle
  event : HANDLE
deriving DecidableEq, Repr

/-- The fields of `WAVEFORMATEX`. -/
structure WAVEFORMATEX where
  wFormatTag : Nat
  nChannels : Nat
  nSamplesPerSec : Nat
  nAvgBytesPerSec : Nat
  nBlockAlign : Nat
  wBitsPerSample : Nat
  cbSize : Nat
deriving DecidableEq, Repr

/-- A block of memory that holds a format: its address and its contents. -/
structure format_buffer where
  addr : Nat
  Format : WAVEFORMATEX
deriving DecidableEq, Repr

/-- The parameters of `is_format_supported`; `fmt_out` is the address of the
block the engine may fill with a suggested format, or null. -/
structure is_format_supported_params where
  device : Nat
  flow : EDataFlow
  share : AUDCLNT_SHAREMODE
  fmt_in : ptr WAVEFORMATEX
  fmt_out : Option Nat
deriving DecidableEq, Repr

/-- One call that leaves the client: an engine call with the parameters it was
given, or one of the functions of the operating system. -/
inductive Call
  | get_capture_buffer (p : get_capture_buffer_params)
  | release_capture_buffer (p : release_capture_buffer_params)
  | get_next_packet_size (p : get_next_packet_size_params)
  | get_render_buffer (p : get_render_buffer_params)
  | release_render_buffer (p : release_render_buffer_params)
  | set_volumes (p : set_volumes_params)
  | start (stream : stream_handle)
  | stop (stream : stream_handle)
  | reset (stream : stream_handle)
  | CreateThread (result : Option HANDLE)
  | SetThreadPriority (thread : HANDLE)
  | session_wrapper_create (result : Option audio_session_wrapper)
  | get_buffer_size (p : get_buffer_size_params)
  | get_latency (p : get_latency_params)
  | get_current_padding (p : get_current_padding_params)
  | set_event_handle (p : set_event_handle_params)
  | is_format_supported (p : is_format_supported_params)
  | CoTaskMemAlloc (result : Option Nat)
  | CoTaskMemFree (block : Option Nat)
deriving DecidableEq, Repr

/-- What the engine leaves behind after `get_capture_buffer`. -/
structure get_capture_buffer_reply where
  result : HRESULT
  data : Option BYTE_ptr
  frames : UINT32
  flags : DWORD
  devpos : UINT64
  qpcpos : UINT64

/-- What the engine leaves behind after `get_next_packet_size`. -/
structure get_next_packet_size_reply where
  result : HRESULT
  frames : UINT32

/-- What the engine leaves behind after `get_render_buffer`. -/
structure get_render_buffer_reply where
  result : HRESULT
  data : Option BYTE_ptr

/-- What the engine leaves behind after `get_buffer_size`. -/
structure get_buffer_size_reply where
  result : HRESULT
  frames : UINT32

/-- What the engine leaves behind after `get_latency`. -/
structure get_latency_reply where
  result : HRESULT
  latency : REFERENCE_TIME

/-- What the engine leaves behind after `get_current_padding`. -/
structure get_current_padding_reply where
  result : HRESULT
  padding : UINT32

/-- What the engine leaves behind after `is_format_supported`: the status, and
the contents of the block behind `fmt_out` when there is one. -/
structure is_format_supported_reply where
  result : HRESULT
  fmt_out : WAVEFORMATEX

/-- The outcomes of the external calls made during one operation: the replies
of the engine (which may depend on the parameters, the current targets of the
out-pointers included) and the results of `CreateThread`,
`session_wrapper_create` and `CoTaskMemAlloc`. -/
structure Env where
  get_capture_buffer : get_capture_buffer_params → get_capture_buffer_reply
  release_capture_buffer : release_capture_buffer_params → HRESULT
  get_next_packet_size : get_next_packet_size_params → get_next_packet_size_reply
  get_render_buffer : get_render_buffer_params → get_render_buffer_reply
  release_render_buffer : release_render_buffer_params → HRESULT
  start : stream_handle → HRESULT
  stop : stream_handle → HRESULT
  reset : stream_handle → HRESULT
  CreateThread : Option HANDLE
  session_wrapper_create : Option audio_session_wrapper
  get_buffer_size : get_buffer_size_params → get_buffer_size_reply
  get_latency : get_latency_params → get_latency_reply
  get_current_padding : get_current_padding_params → get_current_padding_reply
  set_event_handle : set_event_handle_params → HRESULT
  is_format_supported : is_format_supported_params → is_format_supported_reply
  CoTaskMemAlloc : Option Nat

/-- The client together with the log of the calls issued so far. -/
structure World where
  This : audio_client
  calls : List Call
deriving DecidableEq, Repr

/-- Append one call to the log. -/
def World.call (w : World) (c : Call) : World := { w with calls := w.calls ++ [c] }

/-- The result of an operation: status, the world after it, and the targets of
its out-pointers after it. -/
structure Ret (α : Type) where
  hr : HRESULT
  world : World
  out : α

/-! ## Capture and render buffer operations -/

/-- The out-pointers of `capture_GetBuffer`. -/
structure capture_buffer_out where
  data : ptr (Option BYTE_ptr)
  frames : ptr UINT32
  flags : ptr DWORD
  devpos : ptr UINT64
  qpcpos : ptr UINT64
deriving DecidableEq, Repr

def capture_GetBuffer (e : Env) (w : World) (data : ptr (Option BYTE_ptr))
    (frames : ptr UINT32) (flags : ptr DWORD) (devpos qpcpos : ptr UINT64) :
    Ret capture_buffer_out :=
  if data.isNone then
    ⟨E_POINTER, w, ⟨data, frames, flags, devpos, qpcpos⟩⟩
  else
    let data := data.store none
    if frames.isNone || flags.isNone then
      ⟨E_POINTER, w, ⟨data, frames, flags, devpos, qpcpos⟩⟩
    else
      match w.This.stream with
      | none => ⟨AUDCLNT_E_NOT_INITIALIZED, w, ⟨data, frames, flags, devpos, qpcpos⟩⟩
      | some stream =>
        let params : get_capture_buffer_params :=
          { stream := stream, data := data, frames := frames, flags := flags,
            devpos := devpos, qpcpos := qpcpos }
        let r := e.get_capture_buffer params
        ⟨r.result, w.call (Call.get_capture_buffer params),
          ⟨data.store r.data, frames.store r.frames, flags.store r.flags,
            devpos.store r.devpos, qpcpos.store r.qpcpos⟩⟩

def capture_ReleaseBuffer (e : Env) (w : World) (done : UINT32) : Ret Unit :=
  match w.This.stream with
  | none => ⟨AUDCLNT_E_NOT_INITIALIZED, w, ()⟩
  | some stream =>
    let params : release_capture_buffer_params := { stream := stream, done := done }
    ⟨e.release_capture_buffer params, w.call (Call.release_capture_buffer params), ()⟩

def capture_GetNextPacketSize (e : Env) (w : World) (frames : ptr UINT32) :
    Ret (ptr UINT32) :=
  if frames.isNone then
    ⟨E_POINTER, w, frames⟩
  else
    match w.This.stream with
    | none => ⟨AUDCLNT_E_NOT_INITIALIZED, w, frames⟩
    | some stream =>
      let params : get_next_packet_size_params := { stream := stream, frames := frames }
      let r := e.get_next_packet_size params
      ⟨r.result, w.call (Call.get_next_packet_size params), frames.store r.frames⟩

def render_GetBuffer (e : Env) (w : World) (frames : UINT32) (data : ptr (Option BYTE_ptr)) :
    Ret (ptr (Option BYTE_ptr)) :=
  if data.isNone then
    ⟨E_POINTER, w, data⟩
  else
    match w.This.stream with
    | none => ⟨AUDCLNT_E_NOT_INITIALIZED, w, data⟩
    | some stream =>
      let data := data.store none
      let params : get_render_buffer_params :=
        { stream := stream, frames := frames, data := data }
      let r := e.get_render_buffer params
      ⟨r.result, w.call (Call.get_render_buffer params), data.store r.data⟩

def render_ReleaseBuffer (e : Env) (w : World) (written_frames : UINT32) (flags : DWORD) :
    Ret Unit :=
  match w.This.stream with
  | none => ⟨AUDCLNT_E_NOT_INITIALIZED, w, ()⟩
  | some stream =>
    let params : release_render_buffer_params :=
      { stream := stream, written_frames := written_frames, flags := flags }
    ⟨e.release_render_buffer params, w.call (Call.release_render_buffer params), ()⟩

/-! ## Stream queries -/

def client_GetBufferSize (e : Env) (w : World) (out : ptr UINT32) : Ret (ptr UINT32) :=
  if out.isNone then
    ⟨E_POINTER, w, out⟩
  else
    match w.This.stream with
    | none => ⟨AUDCLNT_E_NOT_INITIALIZED, w, out⟩
    | some stream =>
      let params : get_buffer_size_params := { stream := stream, frames := out }
      let r := e.get_buffer_size params
      ⟨r.result, w.call (Call.get_buffer_size params), out.store r.frames⟩

def client_GetStreamLatency (e : Env) (w : World) (latency : ptr REFERENCE_TIME) :
    Ret (ptr REFERENCE_TIME) :=
  if latency.isNone then
    ⟨E_POINTER, w, latency⟩
  else
    match w.This.stream with
    | none => ⟨AUDCLNT_E_NOT_INITIALIZED, w, latency⟩
    | some stream =>
      let params : get_latency_params := { stream := stream, latency := latency }
      let r := e.get_latency params
      ⟨r.result, w.call (Call.get_latency params), latency.store r.latency⟩

def client_GetCurrentPadding (e : Env) (w : World) (out : ptr UINT32) : Ret (ptr UINT32) :=
  if out.isNone then
    ⟨E_POINTER, w, out⟩
  else
    match w.This.stream with
    | none => ⟨AUDCLNT_E_NOT_INITIALIZED, w, out⟩
    | some stream =>
      let params : get_current_padding_params := { stream := stream, padding := out }
      let r := e.get_current_padding params
      ⟨r.result, w.call (Call.get_current_padding params), out.store r.padding⟩

/-! ## Format negotiation -/

/-- The share mode `AUDCLNT_SHAREMODE_SHARED`. -/
def AUDCLNT_SHAREMODE_SHARED : AUDCLNT_SHAREMODE := 0

/-- The share mode `AUDCLNT_SHAREMODE_EXCLUSIVE`. -/
def AUDCLNT_SHAREMODE_EXCLUSIVE : AUDCLNT_SHAREMODE := 1

/-- The assignment `*p = v` with no test of `p` before it: through a null
pointer it has no defined result. -/
def ptr.write {α : Type} (p : ptr α) (v : α) : Option (ptr α) :=
  match p with
  | none => none
  | some _ => some (some v)

/-- The function `client_IsFormatSupported`.  `*out` holds the address of a
block with a format, or null; `&params.fmt_out->Format` is the block behind
`params.fmt_out` (the member `Format` is at its start), null when
`params.fmt_out` is null.  The trace output of `dump_fmt` is left out. -/
def client_IsFormatSupported (e : Env) (w : World) (mode : AUDCLNT_SHAREMODE)
    (fmt : ptr WAVEFORMATEX) (out : ptr (Option format_buffer)) :
    Option (Ret (ptr (Option format_buffer))) :=
  let entry : ptr (Option format_buffer) × Option Nat × World :=
    match out with
    | none => (out, none, w)
    | some _ =>
      if mode = AUDCLNT_SHAREMODE_SHARED then
        (out.store none, e.CoTaskMemAlloc, w.call (Call.CoTaskMemAlloc e.CoTaskMemAlloc))
      else
        (out.store none, none, w)
  let out1 := entry.1
  let fmt_out := entry.2.1
  let params : is_format_supported_params :=
    { device := w.This.device_name, flow := w.This.dataflow, share := mode, fmt_in := fmt,
      fmt_out := fmt_out }
  let r := e.is_format_supported params
  let w1 := entry.2.2.call (Call.is_format_supported params)
  if r.result = S_FALSE then
    match out1.write (fmt_out.map (fun addr => ⟨addr, r.fmt_out⟩)) with
    | none => none
    | some out2 => some ⟨r.result, w1, out2⟩
  else
    some ⟨r.result, w1.call (Call.CoTaskMemFree fmt_out), out1⟩

/-! ## Client properties -/

/-- The fields of `AudioClientProperties`; the older layout
`Win8AudioClientProperties` ends before `Options`. -/
structure AudioClientProperties where
  cbSize : UINT32
  bIsOffload : BOOL
  eCategory : Nat
  Options : Nat
deriving DecidableEq, Repr

/-- The function `client_SetClientProperties`.  The two sizes it compares
`cbSize` with, `sizeof(AudioClientProperties)` and
`sizeof(Win8AudioClientProperties)`, come from declarations outside `client.c`
and are parameters here. -/
def client_SetClientProperties (sizeof_AudioClientProperties
    sizeof_Win8AudioClientProperties : Nat) (w : World) (prop : ptr AudioClientProperties) :
    Ret Unit :=
  match prop with
  | none => ⟨E_POINTER, w, ()⟩
  | some legacy_prop =>
    if legacy_prop.cbSize = sizeof_AudioClientProperties ∨
        legacy_prop.cbSize = sizeof_Win8AudioClientProperties then
      if legacy_prop.bIsOffload ≠ 0 then
        ⟨AUDCLNT_E_ENDPOINT_OFFLOAD_NOT_CAPABLE, w, ()⟩
      else
        ⟨S_OK, w, ()⟩
    else
      ⟨E_INVALIDARG, w, ()⟩

/-! ## Stream volume -/

/-- The load `a[i]`; `none` when `i` is outside the array. -/
def array_load (a : List float) (i : Nat) : Option float := a[i]?

/-- The store `a[i] = v`; `none` when `i` is outside the array. -/
def array_store (a : List float) (i : Nat) (v : float) : Option (List float) :=
  if i < a.length then some (a.set i v) else none

/-- The loop `for (; i < count; ++i) dst[i] = src[i];` with `n = count - i`
iterations left. -/
def copy_loop (src : List float) : (n i : Nat) → List float → Option (List float)
  | 0, _, dst => some dst
  | n + 1, i, dst =>
    match array_load src i with
    | none => none
    | some v =>
      match array_store dst i v with
      | none => none
      | some dst1 => copy_loop src n (i + 1) dst1

def set_stream_volumes (w : World) : Option World :=
  match w.This.session with
  | none => none
  | some session =>
    let params : set_volumes_params :=
      { stream := w.This.stream,
        master_volume := if session.mute then f0 else session.master_vol,
        volumes := w.This.vols,
        session_volumes := session.channel_vols }
    some (w.call (Call.set_volumes params))

def streamvolume_SetChannelVolume (w : World) (index : UINT32) (level : float) :
    Option (Ret Unit) :=
  if level.lt f0 || level.gt f1 then
    some ⟨E_INVALIDARG, w, ()⟩
  else
    match w.This.stream with
    | none => some ⟨AUDCLNT_E_NOT_INITIALIZED, w, ()⟩
    | some _ =>
      if index ≥ w.This.channel_count then
        some ⟨E_INVALIDARG, w, ()⟩
      else
        match array_store w.This.vols index level with
        | none => none
        | some vols =>
          match set_stream_volumes { w with This := { w.This with vols := vols } } with
          | none => none
          | some w1 => some ⟨S_OK, w1, ()⟩

def streamvolume_GetChannelVolume (w : World) (index : UINT32) (level : ptr float) :
    Option (Ret (ptr float)) :=
  if level.isNone then
    some ⟨E_POINTER, w, level⟩
  else
    match w.This.stream with
    | none => some ⟨AUDCLNT_E_NOT_INITIALIZED, w, level⟩
    | some _ =>
      if index ≥ w.This.channel_count then
        some ⟨E_INVALIDARG, w, level⟩
      else
        match array_load w.This.vols index with
        | none => none
        | some v => some ⟨S_OK, w, level.store v⟩

def streamvolume_SetAllVolumes (w : World) (count : UINT32) (levels : ptr (List float)) :
    Option (Ret Unit) :=
  match levels with
  | none => some ⟨E_POINTER, w, ()⟩
  | some levels =>
    match w.This.stream with
    | none => some ⟨AUDCLNT_E_NOT_INITIALIZED, w, ()⟩
    | some _ =>
      if count ≠ w.This.channel_count then
        some ⟨E_INVALIDARG, w, ()⟩
      else
        match copy_loop levels count 0 w.This.vols with
        | none => none
        | some vols =>
          match set_stream_volumes { w with This := { w.This with vols := vols } } with
          | none => none
          | some w1 => some ⟨S_OK, w1, ()⟩

def streamvolume_GetAllVolumes (w : World) (count : UINT32) (levels : ptr (List float)) :
    Option (Ret (ptr (List float))) :=
  match levels with
  | none => some ⟨E_POINTER, w, none⟩
  | some levels =>
    match w.This.stream with
    | none => some ⟨AUDCLNT_E_NOT_INITIALIZED, w, some levels⟩
    | some _ =>
      if count ≠ w.This.channel_count then
        some ⟨E_INVALIDARG, w, some levels⟩
      else
        match copy_loop w.This.vols count 0 levels with
        | none => none
        | some levels1 => some ⟨S_OK, w, some levels1⟩

/-! ## Lifecycle -/

def client_Stop (e : Env) (w : World) : Ret Unit :=
  match w.This.stream with
  | none => ⟨AUDCLNT_E_NOT_INITIALIZED, w, ()⟩
  | some stream => ⟨e.stop stream, w.call (Call.stop stream), ()⟩

def client_Reset (e : Env) (w : World) : Ret Unit :=
  match w.This.stream with
  | none => ⟨AUDCLNT_E_NOT_INITIALIZED, w, ()⟩
  | some stream => ⟨e.reset stream, w.call (Call.reset stream), ()⟩

/-- The body of `client_Start`, which runs between `sessions_lock()` and
`sessions_unlock()`.  `IAudioClient3_Stop` dispatches to `client_Stop`. -/
def client_Start (e : Env) (w : World) : Ret Unit :=
  match w.This.stream with
  | none => ⟨AUDCLNT_E_NOT_INITIALIZED, w, ()⟩
  | some stream =>
    let result := e.start stream
    let w1 := w.call (Call.start stream)
    if SUCCEEDED result && w1.This.timer_thread.isNone then
      let w2 : World :=
        { This := { w1.This with timer_thread := e.CreateThread },
          calls := w1.calls ++ [Call.CreateThread e.CreateThread] }
      match e.CreateThread with
      | some thread => ⟨result, w2.call (Call.SetThreadPriority thread), ()⟩
      | none => ⟨E_FAIL, (client_Stop e w2).world, ()⟩
    else
      ⟨result, w1, ()⟩

def client_SetEventHandle (e : Env) (w : World) (event : Option HANDLE) : Ret Unit :=
  match event with
  | none => ⟨E_INVALIDARG, w, ()⟩
  | some event =>
    match w.This.stream with
    | none => ⟨AUDCLNT_E_NOT_INITIALIZED, w, ()⟩
    | some stream =>
      let params : set_event_handle_params := { stream := stream, event := event }
      ⟨e.set_event_handle params, w.call (Call.set_event_handle params), ()⟩

/-! ## Service lookup -/

/-- The interface identifiers `client_GetService` is asked for. -/
inductive IID
  | IUnknown
  | IAudioRenderClient
  | IAudioCaptureClient
  | IAudioClock
  | IAudioClock2
  | IAudioStreamVolume
  | IAudioSessionControl
  | IChannelAudioVolume
  | ISimpleAudioVolume
  | IMarshal
  | other (guid : Nat)
deriving DecidableEq, Repr

/-- The interface pointers `client_GetService` hands out: the views embedded in
the client, and the views embedded in the session wrapper with the given id. -/
inductive iface
  | IAudioRenderClient_iface
  | IAudioCaptureClient_iface
  | IAudioClock_iface
  | IAudioStreamVolume_iface
  | IAudioSessionControl2_iface (wrapper : Nat)
  | IChannelAudioVolume_iface (wrapper : Nat)
  | ISimpleAudioVolume_iface (wrapper : Nat)
deriving DecidableEq, Repr

/-- Modelled from the spec: `IAudioClient3_AddRef` is reached through the
client's own vtable, which is defined outside `client.c`.  Every view shares
"the core's reference count, not a per-view count", and taking a reference
increments it by one. -/
def IAudioClient3_AddRef (This : audio_client) : audio_client :=
  { This with ref := This.ref + 1 }

def capture_AddRef (This : audio_client) : audio_client := IAudioClient3_AddRef This

def clock_AddRef (This : audio_client) : audio_client := IAudioClient3_AddRef This

def render_AddRef (This : audio_client) : audio_client := IAudioClient3_AddRef This

def streamvolume_AddRef (This : audio_client) : audio_client := IAudioClient3_AddRef This

/-- Modelled from the spec: the `AddRef` of the session wrapper's views is
defined outside `client.c`; a later request returns "the cached instance with
incremented reference count". -/
def session_wrapper_AddRef (sw : audio_session_wrapper) : audio_session_wrapper :=
  { sw with ref := sw.ref + 1 }

/-- The view of the session wrapper that answers `riid`, for the three
session-level identifiers. -/
def session_view (riid : IID) (sw : audio_session_wrapper) (ppv : ptr (Option iface)) :
    ptr (Option iface) :=
  if riid = IID.IAudioSessionControl then
    ppv.store (some (iface.IAudioSessionControl2_iface sw.id))
  else if riid = IID.IChannelAudioVolume then
    ppv.store (some (iface.IChannelAudioVolume_iface sw.id))
  else if riid = IID.ISimpleAudioVolume then
    ppv.store (some (iface.ISimpleAudioVolume_iface sw.id))
  else
    ppv

/-- The body of `client_GetService`; apart from the null check of `ppv` it runs
between `sessions_lock()` and `sessions_unlock()`. -/
def client_GetService (e : Env) (w : World) (riid : IID) (ppv : ptr (Option iface)) :
    Ret (ptr (Option iface)) :=
  if ppv.isNone then
    ⟨E_POINTER, w, ppv⟩
  else
    let ppv := ppv.store none
    match w.This.stream with
    | none => ⟨AUDCLNT_E_NOT_INITIALIZED, w, ppv⟩
    | some _ =>
      if riid = IID.IAudioRenderClient then
        if w.This.dataflow ≠ EDataFlow.eRender then
          ⟨AUDCLNT_E_WRONG_ENDPOINT_TYPE, w, ppv⟩
        else
          ⟨S_OK, { w with This := render_AddRef w.This },
            ppv.store (some iface.IAudioRenderClient_iface)⟩
      else if riid = IID.IAudioCaptureClient then
        if w.This.dataflow ≠ EDataFlow.eCapture then
          ⟨AUDCLNT_E_WRONG_ENDPOINT_TYPE, w, ppv⟩
        else
          ⟨S_OK, { w with This := capture_AddRef w.This },
            ppv.store (some iface.IAudioCaptureClient_iface)⟩
      else if riid = IID.IAudioClock then
        ⟨S_OK, { w with This := clock_AddRef w.This },
          ppv.store (some iface.IAudioClock_iface)⟩
      else if riid = IID.IAudioStreamVolume then
        ⟨S_OK, { w with This := streamvolume_AddRef w.This },
          ppv.store (some iface.IAudioStreamVolume_iface)⟩
      else if riid = IID.IAudioSessionControl ∨ riid = IID.IChannelAudioVolume ∨
          riid = IID.ISimpleAudioVolume then
        match w.This.session_wrapper with
        | none =>
          let w1 : World :=
            { This := { w.This with session_wrapper := e.session_wrapper_create },
              calls := w.calls ++ [Call.session_wrapper_create e.session_wrapper_create] }
          match e.session_wrapper_create with
          | none => ⟨E_OUTOFMEMORY, w1, ppv⟩
          | some sw => ⟨S_OK, w1, session_view riid sw ppv⟩
        | some sw =>
          ⟨S_OK,
            { w with
              This := { w.This with session_wrapper := some (session_wrapper_AddRef sw) } },
            session_view riid sw ppv⟩
      else
        ⟨E_NOINTERFACE, w, ppv⟩

/-- Whether `riid` names one of the three session-level views. -/
def is_session_iid (riid : IID) : Bool :=
  riid = IID.IAudioSessionControl ∨ riid = IID.IChannelAudioVolume ∨
    riid = IID.ISimpleAudioVolume

/-- The view of the wrapper with the given id that answers `riid`, for the three
session-level identifiers. -/
def session_iface (riid : IID) (wrapper : Nat) : Option iface :=
  if riid = IID.IAudioSessionControl then some (iface.IAudioSessionControl2_iface wrapper)
  else if riid = IID.IChannelAudioVolume then some (iface.IChannelAudioVolume_iface wrapper)
  else if riid = IID.ISimpleAudioVolume then some (iface.ISimpleAudioVolume_iface wrapper)
  else none

/-- One `GetService` request: the outcomes of its external calls, the identifier
asked for, and the out-pointer. -/
structure service_request where
  env : Env
  riid : IID
  ppv : ptr (Option iface)

/-- A finite sequence of `GetService` requests applied one after another; the
result is the world after the last request. -/
def run_requests : List service_request → World → World
  | [], w => w
  | q :: rest, w => run_requests rest (client_GetService q.env w q.riid q.ppv).world

/-- Whether a logged call is a `session_wrapper_create` that returned a
wrapper. -/
def is_wrapper_created : Call → Bool
  | Call.session_wrapper_create (some _) => true
  | _ => false

/-- Whether a logged call is a `session_wrapper_create`, successful or not. -/
def is_session_wrapper_create : Call → Bool
  | Call.session_wrapper_create _ => true
  | _ => false

/-- The number of session wrappers created according to a log. -/
def wrappers_created (calls : List Call) : Nat := calls.countP is_wrapper_created

/-- The number of `session_wrapper_create` calls in a log. -/
def session_wrapper_create_calls (calls : List Call) : Nat :=
  calls.countP is_session_wrapper_create

/-- The free slot of the wrapper account: 1 while the client has no session
wrapper, 0 once it has one. -/
def wrapper_slot (w : World) : Nat := if w.This.session_wrapper.isSome then 0 else 1

/-! ## Initialized clients -/

/-- Modelled from the spec: the state in which `client_Initialize` (defined
outside `client.c`) leaves a client.  "`engine_stream` ... present iff the
client has been successfully initialized", "`channel_volumes`: ordered sequence
of float ..., length = channel_count", and the client holds a reference to
exactly one session state. -/
def initialized (This : audio_client) : Prop :=
  This.stream.isSome = true ∧ This.session.isSome = true ∧
    This.vols.length = This.channel_count

instance (This : audio_client) : Decidable (initialized This) := by
  unfold initialized
  infer_instance

/-! ## Sequences of lifecycle calls -/

/-- The lifecycle calls that can follow one another on a client. -/
inductive LifecycleOp
  | Start
  | Stop
  | Reset
deriving DecidableEq, Repr

/-- One lifecycle call, with the outcomes of the external calls it makes. -/
def run_op (op : LifecycleOp) (e : Env) (w : World) : Ret Unit :=
  match op with
  | LifecycleOp.Start => client_Start e w
  | LifecycleOp.Stop => client_Stop e w
  | LifecycleOp.Reset => client_Reset e w

/-- A finite sequence of lifecycle calls applied one after another, each with
its own external outcomes; the result is the world after the last call. -/
def run_ops : List (LifecycleOp × Env) → World → World
  | [], w => w
  | (op, e) :: rest, w => run_ops rest (run_op op e w).world

/-- Whether a logged call is a `CreateThread` that returned a thread. -/
def is_thread_created : Call → Bool
  | Call.CreateThread (some _) => true
  | _ => false

/-- Whether a logged call is a `CreateThread`, successful or not. -/
def is_CreateThread : Call → Bool
  | Call.CreateThread _ => true
  | _ => false

/-- Whether a logged call is the engine call `start`. -/
def is_start : Call → Bool
  | Call.start _ => true
  | _ => false

/-- The number of threads created according to a log. -/
def threads_created (calls : List Call) : Nat := calls.countP is_thread_created

/-- The number of `CreateThread` calls in a log. -/
def CreateThread_calls (calls : List Call) : Nat := calls.countP is_CreateThread

/-- The number of engine `start` calls in a log. -/
def start_calls (calls : List Call) : Nat := calls.countP is_start

/-- The free slot of the thread account: 1 while the client has no timer
thread, 0 once it has one. -/
def thread_slot (w : World) : Nat := if w.This.timer_thread.isSome then 0 else 1

/-! ## Concurrent Start calls

`client_Start` runs between `sessions_lock()` and `sessions_unlock()`.  To
follow several threads that call it at the same time, its body is cut into the
single statements below; the threads are interleaved statement by statement in
an arbitrary order. -/

/-- The statement a thread that executes `client_Start` is about to run. -/
inductive StartPc
  /-- About to call `sessions_lock()`. -/
  | entry
  /-- About to test `This->stream`. -/
  | locked
  /-- About to issue `WINE_UNIX_CALL(start, &params)`. -/
  | call_start (stream : stream_handle)
  /-- About to evaluate `SUCCEEDED(params.result) && !This->timer_thread`. -/
  | test_thread (result : HRESULT)
  /-- About to run `This->timer_thread = CreateThread(...)`. -/
  | create_thread (result : HRESULT)
  /-- About to call `SetThreadPriority`. -/
  | set_priority (result : HRESULT) (thread : HANDLE)
  /-- About to call `IAudioClient3_Stop` and set the result to `E_FAIL`. -/
  | stop_again
  /-- About to call `sessions_unlock()` and return `result`. -/
  | unlock (result : HRESULT)
  /-- Has returned `result`. -/
  | returned (result : HRESULT)
deriving DecidableEq, Repr

/-- Whether the thread is between `sessions_lock()` and `sessions_unlock()`. -/
def StartPc.in_section : StartPc → Bool
  | StartPc.entry => false
  | StartPc.returned _ => false
  | _ => true

/-- Whether the thread is past its engine `start` call. -/
def StartPc.called_start : StartPc → Bool
  | StartPc.entry => false
  | StartPc.locked => false
  | StartPc.call_start _ => false
  | _ => true

/-- Whether the thread is past the test of `This->timer_thread`, on a path on
which a thread exists. -/
def StartPc.past_test : StartPc → Bool
  | StartPc.set_priority _ _ => true
  | StartPc.unlock _ => true
  | StartPc.returned _ => true
  | _ => false

/-- The status the thread holds in `params.result`, once it has one. -/
def StartPc.result : StartPc → Option HRESULT
  | StartPc.test_thread r => some r
  | StartPc.create_thread r => some r
  | StartPc.set_priority r _ => some r
  | StartPc.unlock r => some r
  | StartPc.returned r => some r
  | _ => none

/-- The number of statements the thread can still run, at most. -/
def StartPc.remaining : StartPc → Nat
  | StartPc.entry => 7
  | StartPc.locked => 6
  | StartPc.call_start _ => 5
  | StartPc.test_thread _ => 4
  | StartPc.create_thread _ => 3
  | StartPc.set_priority _ _ => 2
  | StartPc.stop_again => 2
  | StartPc.unlock _ => 1
  | StartPc.returned _ => 0

/-- The state of `N` threads that call `client_Start` on one client: the world,
the owner of the sessions lock, and where each thread stands. -/
structure Sys (N : Nat) where
  world : World
  lock : Option (Fin N)
  pc : Fin N → StartPc

/-- The state in which all `N` threads are about to enter `client_Start`. -/
def Sys.init (N : Nat) (w : World) : Sys N :=
  { world := w, lock := none, pc := fun _ => StartPc.entry }

/-- Modelled from the spec: `sessions_lock()`, defined outside `client.c`, is
"a single process-wide lock" that "serializes ... Start/Stop's timer-thread
creation decision": it is taken by one thread at a time, and a thread that
finds it taken waits (its step changes nothing). -/
def sessions_lock {N : Nat} (i : Fin N) (σ : Sys N) : Sys N :=
  match σ.lock with
  | none => { σ with lock := some i, pc := Function.update σ.pc i StartPc.locked }
  | some _ => σ

/-- Modelled from the spec: `sessions_unlock()`, defined outside `client.c`,
releases the lock taken by `sessions_lock()`. -/
def sessions_unlock {N : Nat} (σ : Sys N) : Sys N := { σ with lock := none }

/-- One statement of thread `i`, where `envs i` holds the outcomes of the
external calls of that thread. -/
def Sys.step {N : Nat} (envs : Fin N → Env) (i : Fin N) (σ : Sys N) : Sys N :=
  match σ.pc i with
  | StartPc.entry => sessions_lock i σ
  | StartPc.locked =>
    match σ.world.This.stream with
    | none =>
      { σ with pc := Function.update σ.pc i (StartPc.unlock AUDCLNT_E_NOT_INITIALIZED) }
    | some stream => { σ with pc := Function.update σ.pc i (StartPc.call_start stream) }
  | StartPc.call_start stream =>
    { σ with
      world := σ.world.call (Call.start stream),
      pc := Function.update σ.pc i (StartPc.test_thread ((envs i).start stream)) }
  | StartPc.test_thread result =>
    if SUCCEEDED result && σ.world.This.timer_thread.isNone then
      { σ with pc := Function.update σ.pc i (StartPc.create_thread result) }
    else
      { σ with pc := Function.update σ.pc i (StartPc.unlock result) }
  | StartPc.create_thread result =>
    { σ with
      world :=
        { This := { σ.world.This with timer_thread := (envs i).CreateThread },
          calls := σ.world.calls ++ [Call.CreateThread (envs i).CreateThread] },
      pc := Function.update σ.pc i
        (match (envs i).CreateThread with
          | some thread => StartPc.set_priority result thread
          | none => StartPc.stop_again) }
  | StartPc.set_priority result thread =>
    { σ with
      world := σ.world.call (Call.SetThreadPriority thread),
      pc := Function.update σ.pc i (StartPc.unlock result) }
  | StartPc.stop_again =>
    { σ with
      world := (client_Stop (envs i) σ.world).world,
      pc := Function.update σ.pc i (StartPc.unlock E_FAIL) }
  | StartPc.unlock result =>
    { sessions_unlock σ with pc := Function.update σ.pc i (StartPc.returned result) }
  | StartPc.returned _ => σ

/-- An execution: the threads named by the schedule run one statement each, in
that order. -/
def Sys.run {N : Nat} (envs : Fin N → Env) : List (Fin N) → Sys N → Sys N
  | [], σ => σ
  | i :: rest, σ => Sys.run envs rest (Sys.step envs i σ)

/-- Every thread has returned from `client_Start`. -/
def Sys.all_returned {N : Nat} (σ : Sys N) : Prop := ∀ j, ∃ r, σ.pc j = StartPc.returned r

/-- The number of threads that are past their engine `start` call. -/
def Sys.started {N : Nat} (σ : Sys N) : Nat :=
  Finset.sum Finset.univ (fun j => if (σ.pc j).called_start then 1 else 0)

/-- The number of statements the threads can still run, at most. -/
def Sys.remaining {N : Nat} (σ : Sys N) : Nat :=
  Finset.sum Finset.univ (fun j => (σ.pc j).remaining)

/-- What holds in every state that `N` concurrent `Start` calls can reach from
the world `w0` with stream `s`, when every engine start and every
`CreateThread` succeeds. -/
structure Sys.Inv {N : Nat} (w0 : World) (s : stream_handle) (σ : Sys N) : Prop where
  stream : σ.world.This.stream = some s
  mutex : ∀ j, (σ.pc j).in_section = true ↔ σ.lock = some j
  start_arg : ∀ j s1, σ.pc j = StartPc.call_start s1 → s1 = s
  no_thread : ∀ j r, σ.pc j = StartPc.create_thread r → σ.world.This.timer_thread = none
  no_stop : ∀ j, σ.pc j ≠ StartPc.stop_again
  success : ∀ j r, (σ.pc j).result = some r → SUCCEEDED r = true
  has_thread : ∀ j, (σ.pc j).past_test = true → σ.world.This.timer_thread.isSome = true
  threads : threads_created σ.world.calls + thread_slot σ.world
    = threads_created w0.calls + thread_slot w0
  starts : start_calls σ.world.calls = start_calls w0.calls + σ.started

/-! ## Example values -/

/-- The value `0.5f`. -/
def f_half : float := ⟨0x3F000000⟩

/-- The value `2.0f`. -/
def f_two : float := ⟨0x40000000⟩

/-- An environment in which every engine call succeeds and both a thread and a
session wrapper can be created. -/
def env_ok : Env :=
  { get_capture_buffer := fun _ => ⟨S_OK, some 4096, 480, 0, 0, 0⟩
    release_capture_buffer := fun _ => S_OK
    get_next_packet_size := fun _ => ⟨S_OK, 480⟩
    get_render_buffer := fun _ => ⟨S_OK, some 4096⟩
    release_render_buffer := fun _ => S_OK
    start := fun _ => S_OK
    stop := fun _ => S_OK
    reset := fun _ => S_OK
    CreateThread := some 77
    session_wrapper_create := some ⟨5, 1⟩
    get_buffer_size := fun _ => ⟨S_OK, 960⟩
    get_latency := fun _ => ⟨S_OK, 100000⟩
    get_current_padding := fun _ => ⟨S_OK, 0⟩
    set_event_handle := fun _ => S_OK
    is_format_supported := fun _ => ⟨S_OK, ⟨1, 2, 48000, 192000, 4, 16, 0⟩⟩
    CoTaskMemAlloc := some 8192 }

/-- As `env_ok`, except that `CreateThread` fails. -/
def env_no_thread : Env := { env_ok with CreateThread := none }

/-- A session at full volume, not muted, with two channels. -/
def session_ex : audio_session := ⟨f1, false, [f1, f1]⟩

/-- A client that has not been initialized. -/
def client_new : audio_client :=
  { device_name := 0, dataflow := EDataFlow.eRender, stream := none, channel_count := 0,
    vols := [],
    session := none, timer_thread := none, session_wrapper := none, ref := 1 }

/-- An initialized render client with two channels. -/
def client_render : audio_client :=
  { device_name := 0, dataflow := EDataFlow.eRender, stream := some 1, channel_count := 2,
    vols := [f1, f1],
    session := some session_ex, timer_thread := none, session_wrapper := none, ref := 1 }

/-- An initialized capture client with two channels. -/
def client_capture : audio_client := { client_render with dataflow := EDataFlow.eCapture }

/-- As `env_ok`, except that no session wrapper can be created. -/
def env_no_wrapper : Env := { env_ok with session_wrapper_create := none }

/-- As `env_ok`, except that the engine answers `is_format_supported` with the
closest-match status `S_FALSE`. -/
def env_closest : Env :=
  { env_ok with is_format_supported := fun _ => ⟨S_FALSE, ⟨1, 2, 44100, 176400, 4, 16, 0⟩⟩ }

/-- A 16-bit stereo PCM format at 48 kHz. -/
def fmt_ex : WAVEFORMATEX := ⟨1, 2, 48000, 192000, 4, 16, 0⟩

/-- A sequence of session-level requests in which the first one cannot create
the wrapper and the later ones can. -/
def requests_ex : List service_request :=
  [⟨env_no_wrapper, IID.ISimpleAudioVolume, some none⟩,
    ⟨env_ok, IID.IAudioSessionControl, some none⟩,
    ⟨env_ok, IID.IChannelAudioVolume, some none⟩,
    ⟨env_ok, IID.ISimpleAudioVolume, some (some iface.IAudioClock_iface)⟩]

/-- A sequence of lifecycle calls in which the first `Start` cannot create its
thread and the later ones can. -/
def ops_ex : List (LifecycleOp × Env) :=
  [(LifecycleOp.Start, env_no_thread), (LifecycleOp.Start, env_ok),
    (LifecycleOp.Stop, env_ok), (LifecycleOp.Start, env_ok), (LifecycleOp.Reset, env_ok),
    (LifecycleOp.Start, env_ok)]

/-! ## Theorems -/

/-- C1: with the engine stream absent, render GetBuffer, render ReleaseBuffer,
capture GetBuffer, capture ReleaseBuffer and capture GetNextPacketSize, called
with non-null required out-pointers, return `AUDCLNT_E_NOT_INITIALIZED` and
leave the world (the client and the log of issued calls) as it was. -/
theorem buffer_ops_require_stream (e : Env) (w : World) (h : w.This.stream = none)
    (n written flags done : Nat) (rdata cdata : Option BYTE_ptr) (cframes : UINT32)
    (cflags : DWORD) (devpos qpcpos : ptr UINT64) (pframes : UINT32) :
    ((render_GetBuffer e w n (some rdata)).hr = AUDCLNT_E_NOT_INITIALIZED ∧
      (render_GetBuffer e w n (some rdata)).world = w) ∧
    ((render_ReleaseBuffer e w written flags).hr = AUDCLNT_E_NOT_INITIALIZED ∧
      (render_ReleaseBuffer e w written flags).world = w) ∧
    ((capture_GetBuffer e w (some cdata) (some cframes) (some cflags) devpos qpcpos).hr
        = AUDCLNT_E_NOT_INITIALIZED ∧
      (capture_GetBuffer e w (some cdata) (some cframes) (some cflags) devpos qpcpos).world
        = w) ∧
    ((capture_ReleaseBuffer e w done).hr = AUDCLNT_E_NOT_INITIALIZED ∧
      (capture_ReleaseBuffer e w done).world = w) ∧
    ((capture_GetNextPacketSize e w (some pframes)).hr = AUDCLNT_E_NOT_INITIALIZED ∧
      (capture_GetNextPacketSize e w (some pframes)).world = w) := by
  simp [render_GetBuffer, render_ReleaseBuffer, capture_GetBuffer, capture_ReleaseBuffer,
    capture_GetNextPacketSize, h, ptr.store]

/-- C1 at a client that was never initialized, with a stale value behind the
data pointers. -/
theorem buffer_ops_require_stream_witness :
    (⟨client_new, []⟩ : World).This.stream = none ∧
    ((render_GetBuffer env_ok ⟨client_new, []⟩ 480 (some (some 9))).hr
        = AUDCLNT_E_NOT_INITIALIZED ∧
      (render_GetBuffer env_ok ⟨client_new, []⟩ 480 (some (some 9))).world
        = ⟨client_new, []⟩) ∧
    ((render_ReleaseBuffer env_ok ⟨client_new, []⟩ 480 0).hr = AUDCLNT_E_NOT_INITIALIZED ∧
      (render_ReleaseBuffer env_ok ⟨client_new, []⟩ 480 0).world = ⟨client_new, []⟩) ∧
    ((capture_GetBuffer env_ok ⟨client_new, []⟩ (some (some 9)) (some 0) (some 0) none none).hr
        = AUDCLNT_E_NOT_INITIALIZED ∧
      (capture_GetBuffer env_ok ⟨client_new, []⟩ (some (some 9)) (some 0) (some 0) none
        none).world = ⟨client_new, []⟩) ∧
    ((capture_ReleaseBuffer env_ok ⟨client_new, []⟩ 480).hr = AUDCLNT_E_NOT_INITIALIZED ∧
      (capture_ReleaseBuffer env_ok ⟨client_new, []⟩ 480).world = ⟨client_new, []⟩) ∧
    ((capture_GetNextPacketSize env_ok ⟨client_new, []⟩ (some 0)).hr
        = AUDCLNT_E_NOT_INITIALIZED ∧
      (capture_GetNextPacketSize env_ok ⟨client_new, []⟩ (some 0)).world
        = ⟨client_new, []⟩) :=
  ⟨rfl, buffer_ops_require_stream env_ok ⟨client_new, []⟩ rfl 480 480 0 480 (some 9) (some 9)
    0 0 none none 0⟩

/-! ### Stream volume -/

theorem copy_loop_eq (src : List float) :
    ∀ (n i : Nat) (dst : List float), i + n = src.length → dst.length = src.length →
      copy_loop src n i dst = some (dst.take i ++ src.drop i) := by
  intro n
  induction n with
  | zero =>
    intro i dst hi hd
    have h1 : dst.take i = dst := List.take_of_length_le (by omega)
    have h2 : src.drop i = [] := List.drop_of_length_le (by omega)
    simp [copy_loop, h1, h2]
  | succ n ih =>
    intro i dst hi hd
    have hlt : i < src.length := by omega
    have hlt2 : i < dst.length := by omega
    simp only [copy_loop, array_load, array_store, List.getElem?_eq_getElem hlt, hlt2, if_true]
    rw [ih (i + 1) (dst.set i src[i]) (by omega) (by simpa using hd)]
    congr 1
    rw [List.take_succ, List.drop_eq_getElem_cons hlt, List.set_take,
      List.set_eq_of_length_le (by simp)]
    simp [hlt2]

/-- The whole-array copy: when source and destination both have `count`
elements, the loop ends with the destination equal to the source. -/
theorem copy_loop_all (src dst : List float) (count : Nat) (hs : src.length = count)
    (hd : dst.length = count) : copy_loop src count 0 dst = some src := by
  rw [copy_loop_eq src count 0 dst (by omega) (by omega)]
  simp

theorem E_INVALIDARG_ne_S_OK : S_OK ≠ E_INVALIDARG := by decide

/-- The successful path of `SetChannelVolume`, computed: the store into
`vols[i]` followed by one `set_volumes` call that carries the updated array. -/
theorem SetChannelVolume_ok (w : World) (s : stream_handle) (ses : audio_session)
    (hs : w.This.stream = some s) (hse : w.This.session = some ses) (i : Nat) (v : float)
    (hv1 : v.lt f0 = false) (hv2 : v.gt f1 = false) (hi : i < w.This.channel_count)
    (hi1 : i < w.This.vols.length) :
    streamvolume_SetChannelVolume w i v =
      some ⟨S_OK,
        { This := { w.This with vols := w.This.vols.set i v },
          calls := w.calls ++ [Call.set_volumes
            { stream := some s,
              master_volume := if ses.mute then f0 else ses.master_vol,
              volumes := w.This.vols.set i v,
              session_volumes := ses.channel_vols }] }, ()⟩ := by
  have hi2 : ¬ i ≥ w.This.channel_count := Nat.not_le_of_lt hi
  simp only [streamvolume_SetChannelVolume, hv1, hv2, hs, hi2, array_store, hi1,
    set_stream_volumes, hse, World.call, Bool.or_self, if_true, if_false, Bool.false_eq_true]

/-- The successful path of `GetChannelVolume`, computed. -/
theorem GetChannelVolume_ok (w : World) (s : stream_handle) (hs : w.This.stream = some s)
    (i : Nat) (v old : float) (hi : i < w.This.channel_count)
    (hv : w.This.vols[i]? = some v) :
    streamvolume_GetChannelVolume w i (some old) = some ⟨S_OK, w, some v⟩ := by
  have hi2 : ¬ i ≥ w.This.channel_count := Nat.not_le_of_lt hi
  simp [streamvolume_GetChannelVolume, hs, hi2, array_load, hv, ptr.store]

/-- C2: on an initialized stream, `SetChannelVolume(i, v)` returns
`E_INVALIDARG` exactly when `v < 0.0f`, `v > 1.0f` or `i >= channel_count`, and
then the world is as before (no volume changed, no call issued); otherwise it
returns `S_OK`, channel `i` holds `v`, every other channel is as before, and
`GetChannelVolume(i)` then succeeds and stores `v`. -/
theorem SetChannelVolume_contract (w : World) (hinit : initialized w.This) (i : UINT32)
    (v : float) :
    ∃ r, streamvolume_SetChannelVolume w i v = some r ∧
      (r.hr = E_INVALIDARG ↔
        (v.lt f0 = true ∨ v.gt f1 = true ∨ i ≥ w.This.channel_count)) ∧
      (r.hr = E_INVALIDARG → r.world = w) ∧
      (r.hr ≠ E_INVALIDARG →
        r.hr = S_OK ∧
        r.world.This.vols[i]? = some v ∧
        (∀ j, j ≠ i → r.world.This.vols[j]? = w.This.vols[j]?) ∧
        r.world.This.vols.length = w.This.vols.length ∧
        ∀ old : float, ∃ g, streamvolume_GetChannelVolume r.world i (some old) = some g ∧
          g.hr = S_OK ∧ g.out = some v) := by
  obtain ⟨hs, hse, hlen⟩ := hinit
  obtain ⟨s, hs⟩ := Option.isSome_iff_exists.mp hs
  obtain ⟨ses, hse⟩ := Option.isSome_iff_exists.mp hse
  by_cases hv : (v.lt f0 || v.gt f1) = true
  · refine ⟨⟨E_INVALIDARG, w, ()⟩, by simp [streamvolume_SetChannelVolume, hv], ?_, ?_, ?_⟩
    · have : v.lt f0 = true ∨ v.gt f1 = true := by simpa using hv
      constructor
      · intro _
        rcases this with h | h
        · exact Or.inl h
        · exact Or.inr (Or.inl h)
      · intro _; rfl
    · intro _; rfl
    · intro h; exact absurd rfl h
  · have hv1 : v.lt f0 = false := by
      cases h : v.lt f0 <;> simp_all
    have hv2 : v.gt f1 = false := by
      cases h : v.gt f1 <;> simp_all
    by_cases hi : i ≥ w.This.channel_count
    · refine ⟨⟨E_INVALIDARG, w, ()⟩,
        by simp [streamvolume_SetChannelVolume, hv1, hv2, hs, hi], ?_, ?_, ?_⟩
      · exact ⟨fun _ => Or.inr (Or.inr hi), fun _ => rfl⟩
      · intro _; rfl
      · intro h; exact absurd rfl h
    · have hi1 : i < w.This.vols.length := by
        rw [hlen]
        exact Nat.lt_of_not_ge hi
      have hi0 : i < w.This.channel_count := Nat.lt_of_not_ge hi
      refine ⟨_, SetChannelVolume_ok w s ses hs hse i v hv1 hv2 hi0 hi1, ?_, ?_, ?_⟩
      · constructor
        · intro h; exact absurd h E_INVALIDARG_ne_S_OK
        · intro h
          rcases h with h | h | h
          · simp [hv1] at h
          · simp [hv2] at h
          · exact absurd h hi
      · intro h; exact absurd h E_INVALIDARG_ne_S_OK
      · intro _
        refine ⟨rfl, ?_, ?_, ?_, ?_⟩
        · simp [hi1]
        · intro j hj
          simp [List.getElem?_set, Ne.symm hj]
        · simp
        · intro old
          exact ⟨_, GetChannelVolume_ok _ s (by exact hs) i v old (by exact hi0)
            (by simp [hi1]), rfl, rfl⟩

/-- C2 at the stereo render client: `SetChannelVolume(1, 0.5f)`. -/
theorem SetChannelVolume_contract_witness :
    initialized (World.mk client_render []).This ∧
    ∃ r, streamvolume_SetChannelVolume ⟨client_render, []⟩ 1 f_half = some r ∧
      (r.hr = E_INVALIDARG ↔
        (f_half.lt f0 = true ∨ f_half.gt f1 = true ∨
          1 ≥ (World.mk client_render []).This.channel_count)) ∧
      (r.hr = E_INVALIDARG → r.world = ⟨client_render, []⟩) ∧
      (r.hr ≠ E_INVALIDARG →
        r.hr = S_OK ∧
        r.world.This.vols[1]? = some f_half ∧
        (∀ j, j ≠ 1 → r.world.This.vols[j]? = (World.mk client_render []).This.vols[j]?) ∧
        r.world.This.vols.length = (World.mk client_render []).This.vols.length ∧
        ∀ old : float, ∃ g, streamvolume_GetChannelVolume r.world 1 (some old) = some g ∧
          g.hr = S_OK ∧ g.out = some f_half) :=
  ⟨by decide, SetChannelVolume_contract ⟨client_render, []⟩ (by decide) 1 f_half⟩

/-- The scenario of the specification, evaluated: with two channels,
`SetChannelVolume(2, 0.5f)` is rejected, `SetChannelVolume(1, 0.5f)` succeeds
and `GetChannelVolume(1)` then yields `0.5f`. -/
theorem SetChannelVolume_scenario :
    (streamvolume_SetChannelVolume ⟨client_render, []⟩ 2 f_half).map (fun r => r.hr)
      = some E_INVALIDARG ∧
    (streamvolume_SetChannelVolume ⟨client_render, []⟩ 1 f_half).map (fun r => r.hr)
      = some S_OK ∧
    ((streamvolume_SetChannelVolume ⟨client_render, []⟩ 1 f_half).bind
      (fun r => streamvolume_GetChannelVolume r.world 1 (some f0))).map
        (fun g => (g.hr, g.out)) = some (S_OK, some f_half) := by
  decide

/-- The successful path of `SetAllVolumes`, computed: the copy into `vols`
followed by one `set_volumes` call that carries the updated array. -/
theorem SetAllVolumes_ok (w : World) (s : stream_handle) (ses : audio_session)
    (hs : w.This.stream = some s) (hse : w.This.session = some ses)
    (hlen : w.This.vols.length = w.This.channel_count) (levels : List float)
    (hl : levels.length = w.This.channel_count) :
    streamvolume_SetAllVolumes w w.This.channel_count (some levels) =
      some ⟨S_OK,
        { This := { w.This with vols := levels },
          calls := w.calls ++ [Call.set_volumes
            { stream := some s,
              master_volume := if ses.mute then f0 else ses.master_vol,
              volumes := levels,
              session_volumes := ses.channel_vols }] }, ()⟩ := by
  simp only [streamvolume_SetAllVolumes, hs, copy_loop_all levels w.This.vols _ hl hlen,
    set_stream_volumes, hse, World.call, ne_eq, not_true_eq_false, if_false]

/-- The successful path of `GetAllVolumes`, computed. -/
theorem GetAllVolumes_ok (w : World) (s : stream_handle) (hs : w.This.stream = some s)
    (hlen : w.This.vols.length = w.This.channel_count) (out : List float)
    (ho : out.length = w.This.channel_count) :
    streamvolume_GetAllVolumes w w.This.channel_count (some out) =
      some ⟨S_OK, w, some w.This.vols⟩ := by
  simp only [streamvolume_GetAllVolumes, hs, copy_loop_all w.This.vols out _ hlen ho,
    ne_eq, not_true_eq_false, if_false]

/-- C3: on a stream whose engine stream is present, `SetAllVolumes(count,
levels)` with a non-null array and `count` different from `channel_count`
returns `E_INVALIDARG` and leaves the world as it was: no volume is written and
no call is issued. -/
theorem SetAllVolumes_count_mismatch (w : World) (hs : w.This.stream.isSome = true)
    (count : UINT32) (levels : List float) (hc : count ≠ w.This.channel_count) :
    streamvolume_SetAllVolumes w count (some levels) = some ⟨E_INVALIDARG, w, ()⟩ := by
  obtain ⟨s, hs⟩ := Option.isSome_iff_exists.mp hs
  simp [streamvolume_SetAllVolumes, hs, hc]

/-- C3 at the stereo render client: three levels for two channels. -/
theorem SetAllVolumes_count_mismatch_witness :
    (World.mk client_render []).This.stream.isSome = true ∧
    (3 : UINT32) ≠ (World.mk client_render []).This.channel_count ∧
    streamvolume_SetAllVolumes ⟨client_render, []⟩ 3 (some [f_half, f_half, f_half]) =
      some ⟨E_INVALIDARG, ⟨client_render, []⟩, ()⟩ :=
  ⟨rfl, by decide,
    SetAllVolumes_count_mismatch ⟨client_render, []⟩ rfl 3 [f_half, f_half, f_half]
      (by decide)⟩

/-- C4 (the code at the failing input): on the stereo render client,
`SetAllVolumes(2, {2.0f, 0.5f})` returns `S_OK` and stores `2.0f`, a level
above `1.0f`, in channel 0. -/
theorem SetAllVolumes_accepts_out_of_range :
    f_two.gt f1 = true ∧
    (streamvolume_SetAllVolumes ⟨client_render, []⟩ 2 (some [f_two, f_half])).map
      (fun r => (r.hr, r.world.This.vols)) = some (S_OK, [f_two, f_half]) := by
  decide

/-- C5: on an initialized stream, `SetAllVolumes(channel_count, levels)` with
`channel_count` levels returns `S_OK`, and `GetAllVolumes(channel_count, out)`
into a buffer of `channel_count` elements then returns `S_OK` and leaves
exactly `levels` in the buffer. -/
theorem SetAllVolumes_GetAllVolumes_roundtrip (w : World) (hinit : initialized w.This)
    (levels : List float) (hl : levels.length = w.This.channel_count) :
    ∃ r, streamvolume_SetAllVolumes w w.This.channel_count (some levels) = some r ∧
      r.hr = S_OK ∧
      ∀ out : List float, out.length = w.This.channel_count →
        ∃ g, streamvolume_GetAllVolumes r.world w.This.channel_count (some out) = some g ∧
          g.hr = S_OK ∧ g.out = some levels := by
  obtain ⟨hs, hse, hlen⟩ := hinit
  obtain ⟨s, hs⟩ := Option.isSome_iff_exists.mp hs
  obtain ⟨ses, hse⟩ := Option.isSome_iff_exists.mp hse
  refine ⟨_, SetAllVolumes_ok w s ses hs hse hlen levels hl, rfl, ?_⟩
  intro out ho
  exact ⟨_, GetAllVolumes_ok _ s (by exact hs) (by exact hl) out (by exact ho), rfl, rfl⟩

/-- C5 at the stereo render client, with levels `{0.5f, 0.0f}`. -/
theorem SetAllVolumes_GetAllVolumes_roundtrip_witness :
    initialized (World.mk client_render []).This ∧
    [f_half, f0].length = (World.mk client_render []).This.channel_count ∧
    ∃ r, streamvolume_SetAllVolumes ⟨client_render, []⟩
        (World.mk client_render []).This.channel_count (some [f_half, f0]) = some r ∧
      r.hr = S_OK ∧
      ∀ out : List float, out.length = (World.mk client_render []).This.channel_count →
        ∃ g, streamvolume_GetAllVolumes r.world
            (World.mk client_render []).This.channel_count (some out) = some g ∧
          g.hr = S_OK ∧ g.out = some [f_half, f0] :=
  ⟨by decide, rfl,
    SetAllVolumes_GetAllVolumes_roundtrip ⟨client_render, []⟩ (by decide) [f_half, f0] rfl⟩

/-- The rejecting paths of `SetChannelVolume`, computed. -/
theorem SetChannelVolume_rejected (w : World) (s : stream_handle)
    (hs : w.This.stream = some s) (i : Nat) (v : float)
    (h : v.lt f0 = true ∨ v.gt f1 = true ∨ i ≥ w.This.channel_count) :
    streamvolume_SetChannelVolume w i v = some ⟨E_INVALIDARG, w, ()⟩ := by
  rcases h with h | h | h
  · simp [streamvolume_SetChannelVolume, h]
  · simp [streamvolume_SetChannelVolume, h]
  · by_cases hv : (v.lt f0 || v.gt f1) = true
    · simp [streamvolume_SetChannelVolume, hv]
    · simp [streamvolume_SetChannelVolume, hv, hs, h]

/-- C6: on an initialized client every `SetChannelVolume` and every
`SetAllVolumes` call returns, and when it returns `S_OK` the log has grown by
exactly one call, a `set_volumes` that carries `0.0f` if the session is muted
and the session master volume otherwise, the stream array as just updated, and
the session channel array; when it does not return `S_OK` nothing was issued
and nothing changed. -/
theorem volume_update_pushes_gain (w : World) (hinit : initialized w.This) :
    ∃ s ses, w.This.stream = some s ∧ w.This.session = some ses ∧
      (∀ (i : UINT32) (v : float), ∃ r, streamvolume_SetChannelVolume w i v = some r ∧
        (r.hr = S_OK →
          r.world.This.vols = w.This.vols.set i v ∧
          r.world.calls = w.calls ++ [Call.set_volumes
            { stream := some s,
              master_volume := if ses.mute then f0 else ses.master_vol,
              volumes := r.world.This.vols,
              session_volumes := ses.channel_vols }]) ∧
        (r.hr ≠ S_OK → r.world = w)) ∧
      (∀ (count : UINT32) (levels : List float), levels.length = count →
        ∃ r, streamvolume_SetAllVolumes w count (some levels) = some r ∧
        (r.hr = S_OK →
          r.world.This.vols = levels ∧
          r.world.calls = w.calls ++ [Call.set_volumes
            { stream := some s,
              master_volume := if ses.mute then f0 else ses.master_vol,
              volumes := r.world.This.vols,
              session_volumes := ses.channel_vols }]) ∧
        (r.hr ≠ S_OK → r.world = w)) := by
  obtain ⟨hs, hse, hlen⟩ := hinit
  obtain ⟨s, hs⟩ := Option.isSome_iff_exists.mp hs
  obtain ⟨ses, hse⟩ := Option.isSome_iff_exists.mp hse
  refine ⟨s, ses, hs, hse, ?_, ?_⟩
  · intro i v
    by_cases h : v.lt f0 = true ∨ v.gt f1 = true ∨ i ≥ w.This.channel_count
    · refine ⟨_, SetChannelVolume_rejected w s hs i v h, ?_, fun _ => rfl⟩
      intro h0
      exact absurd h0.symm E_INVALIDARG_ne_S_OK
    · have hv1 : v.lt f0 = false := by
        cases hc : v.lt f0 <;> simp_all
      have hv2 : v.gt f1 = false := by
        cases hc : v.gt f1 <;> simp_all
      have hi : i < w.This.channel_count := Nat.lt_of_not_ge (fun hc => h (Or.inr (Or.inr hc)))
      have hi1 : i < w.This.vols.length := by
        rw [hlen]
        exact hi
      exact ⟨_, SetChannelVolume_ok w s ses hs hse i v hv1 hv2 hi hi1, fun _ => ⟨rfl, rfl⟩,
        fun h0 => absurd rfl h0⟩
  · intro count levels hl
    by_cases hc : count = w.This.channel_count
    · subst hc
      exact ⟨_, SetAllVolumes_ok w s ses hs hse hlen levels hl, fun _ => ⟨rfl, rfl⟩,
        fun h0 => absurd rfl h0⟩
    · refine ⟨⟨E_INVALIDARG, w, ()⟩, by simp [streamvolume_SetAllVolumes, hs, hc], ?_,
        fun _ => rfl⟩
      intro h0
      exact absurd h0.symm E_INVALIDARG_ne_S_OK

/-- C6 at the stereo render client. -/
theorem volume_update_pushes_gain_witness :
    initialized (World.mk client_render []).This ∧
    ∃ s ses, (World.mk client_render []).This.stream = some s ∧
      (World.mk client_render []).This.session = some ses ∧
      (∀ (i : UINT32) (v : float),
        ∃ r, streamvolume_SetChannelVolume ⟨client_render, []⟩ i v = some r ∧
        (r.hr = S_OK →
          r.world.This.vols = (World.mk client_render []).This.vols.set i v ∧
          r.world.calls = (World.mk client_render []).calls ++ [Call.set_volumes
            { stream := some s,
              master_volume := if ses.mute then f0 else ses.master_vol,
              volumes := r.world.This.vols,
              session_volumes := ses.channel_vols }]) ∧
        (r.hr ≠ S_OK → r.world = ⟨client_render, []⟩)) ∧
      (∀ (count : UINT32) (levels : List float), levels.length = count →
        ∃ r, streamvolume_SetAllVolumes ⟨client_render, []⟩ count (some levels) = some r ∧
        (r.hr = S_OK →
          r.world.This.vols = levels ∧
          r.world.calls = (World.mk client_render []).calls ++ [Call.set_volumes
            { stream := some s,
              master_volume := if ses.mute then f0 else ses.master_vol,
              volumes := r.world.This.vols,
              session_volumes := ses.channel_vols }]) ∧
        (r.hr ≠ S_OK → r.world = ⟨client_render, []⟩)) :=
  ⟨by decide, volume_update_pushes_gain ⟨client_render, []⟩ (by decide)⟩

/-- The push to the engine, evaluated: on the stereo render client with the
session muted, `SetChannelVolume(0, 0.5f)` issues exactly one call, which carries
`0.0f`, the updated stream array and the session array. -/
theorem volume_update_pushes_gain_muted :
    (streamvolume_SetChannelVolume
      ⟨{ client_render with session := some { session_ex with mute := true } }, []⟩ 0
      f_half).map (fun r => (r.hr, r.world.calls)) =
    some (S_OK, [Call.set_volumes
      { stream := some 1, master_volume := f0, volumes := [f_half, f1],
        session_volumes := [f1, f1] }]) := by
  decide

/-! ### Service lookup -/

/-- C7: with the engine stream present and a non-null `ppv`, asking for the
render view when the data flow is not `eRender`, or for the capture view when it
is not `eCapture`, returns `AUDCLNT_E_WRONG_ENDPOINT_TYPE`, leaves `*ppv` null
and the world (reference count included) as it was; asking for the view that
matches the data flow returns `S_OK`, stores that view in `*ppv`, and changes
nothing but the client's reference count, which grows by one. -/
theorem GetService_direction (e : Env) (w : World) (hs : w.This.stream.isSome = true)
    (old : Option iface) :
    (w.This.dataflow ≠ EDataFlow.eRender →
      (client_GetService e w IID.IAudioRenderClient (some old)).hr
          = AUDCLNT_E_WRONG_ENDPOINT_TYPE ∧
        (client_GetService e w IID.IAudioRenderClient (some old)).out = some none ∧
        (client_GetService e w IID.IAudioRenderClient (some old)).world = w) ∧
    (w.This.dataflow ≠ EDataFlow.eCapture →
      (client_GetService e w IID.IAudioCaptureClient (some old)).hr
          = AUDCLNT_E_WRONG_ENDPOINT_TYPE ∧
        (client_GetService e w IID.IAudioCaptureClient (some old)).out = some none ∧
        (client_GetService e w IID.IAudioCaptureClient (some old)).world = w) ∧
    (w.This.dataflow = EDataFlow.eRender →
      (client_GetService e w IID.IAudioRenderClient (some old)).hr = S_OK ∧
        (client_GetService e w IID.IAudioRenderClient (some old)).out
          = some (some iface.IAudioRenderClient_iface) ∧
        (client_GetService e w IID.IAudioRenderClient (some old)).world
          = { w with This := { w.This with ref := w.This.ref + 1 } }) ∧
    (w.This.dataflow = EDataFlow.eCapture →
      (client_GetService e w IID.IAudioCaptureClient (some old)).hr = S_OK ∧
        (client_GetService e w IID.IAudioCaptureClient (some old)).out
          = some (some iface.IAudioCaptureClient_iface) ∧
        (client_GetService e w IID.IAudioCaptureClient (some old)).world
          = { w with This := { w.This with ref := w.This.ref + 1 } }) := by
  obtain ⟨s, hs⟩ := Option.isSome_iff_exists.mp hs
  refine ⟨?_, ?_, ?_, ?_⟩ <;> intro hd <;>
    simp [client_GetService, hs, hd, ptr.store, render_AddRef, capture_AddRef,
      IAudioClient3_AddRef]

/-- C7 at the two-channel capture client, with a stale value behind `ppv`. -/
theorem GetService_direction_witness :
    (World.mk client_capture []).This.stream.isSome = true ∧
    ((World.mk client_capture []).This.dataflow ≠ EDataFlow.eRender →
      (client_GetService env_ok ⟨client_capture, []⟩ IID.IAudioRenderClient
          (some (some iface.IAudioClock_iface))).hr = AUDCLNT_E_WRONG_ENDPOINT_TYPE ∧
        (client_GetService env_ok ⟨client_capture, []⟩ IID.IAudioRenderClient
          (some (some iface.IAudioClock_iface))).out = some none ∧
        (client_GetService env_ok ⟨client_capture, []⟩ IID.IAudioRenderClient
          (some (some iface.IAudioClock_iface))).world = ⟨client_capture, []⟩) ∧
    ((World.mk client_capture []).This.dataflow ≠ EDataFlow.eCapture →
      (client_GetService env_ok ⟨client_capture, []⟩ IID.IAudioCaptureClient
          (some (some iface.IAudioClock_iface))).hr = AUDCLNT_E_WRONG_ENDPOINT_TYPE ∧
        (client_GetService env_ok ⟨client_capture, []⟩ IID.IAudioCaptureClient
          (some (some iface.IAudioClock_iface))).out = some none ∧
        (client_GetService env_ok ⟨client_capture, []⟩ IID.IAudioCaptureClient
          (some (some iface.IAudioClock_iface))).world = ⟨client_capture, []⟩) ∧
    ((World.mk client_capture []).This.dataflow = EDataFlow.eRender →
      (client_GetService env_ok ⟨client_capture, []⟩ IID.IAudioRenderClient
          (some (some iface.IAudioClock_iface))).hr = S_OK ∧
        (client_GetService env_ok ⟨client_capture, []⟩ IID.IAudioRenderClient
          (some (some iface.IAudioClock_iface))).out
            = some (some iface.IAudioRenderClient_iface) ∧
        (client_GetService env_ok ⟨client_capture, []⟩ IID.IAudioRenderClient
          (some (some iface.IAudioClock_iface))).world
            = { (World.mk client_capture []) with
                This := { (World.mk client_capture []).This with
                  ref := (World.mk client_capture []).This.ref + 1 } }) ∧
    ((World.mk client_capture []).This.dataflow = EDataFlow.eCapture →
      (client_GetService env_ok ⟨client_capture, []⟩ IID.IAudioCaptureClient
          (some (some iface.IAudioClock_iface))).hr = S_OK ∧
        (client_GetService env_ok ⟨client_capture, []⟩ IID.IAudioCaptureClient
          (some (some iface.IAudioClock_iface))).out
            = some (some iface.IAudioCaptureClient_iface) ∧
        (client_GetService env_ok ⟨client_capture, []⟩ IID.IAudioCaptureClient
          (some (some iface.IAudioClock_iface))).world
            = { (World.mk client_capture []) with
                This := { (World.mk client_capture []).This with
                  ref := (World.mk client_capture []).This.ref + 1 } }) :=
  ⟨rfl, GetService_direction env_ok ⟨client_capture, []⟩ rfl (some iface.IAudioClock_iface)⟩

/-- The scenario of the specification, evaluated: on a render stream the capture
view is refused, `*ppv` is null and the reference count is still 1; the render
view is handed out and the reference count is 2. -/
theorem GetService_scenario :
    (client_GetService env_ok ⟨client_render, []⟩ IID.IAudioCaptureClient
        (some (some iface.IAudioClock_iface))).hr = AUDCLNT_E_WRONG_ENDPOINT_TYPE ∧
    (client_GetService env_ok ⟨client_render, []⟩ IID.IAudioCaptureClient
        (some (some iface.IAudioClock_iface))).out = some none ∧
    (client_GetService env_ok ⟨client_render, []⟩ IID.IAudioCaptureClient
        (some (some iface.IAudioClock_iface))).world.This.ref = 1 ∧
    (client_GetService env_ok ⟨client_render, []⟩ IID.IAudioRenderClient
        (some (some iface.IAudioClock_iface))).hr = S_OK ∧
    (client_GetService env_ok ⟨client_render, []⟩ IID.IAudioRenderClient
        (some (some iface.IAudioClock_iface))).out
          = some (some iface.IAudioRenderClient_iface) ∧
    (client_GetService env_ok ⟨client_render, []⟩ IID.IAudioRenderClient
        (some (some iface.IAudioClock_iface))).world.This.ref = 2 := by
  decide

/-! ### Start, Stop, Reset -/

theorem Start_uninit (e : Env) (w : World) (hs : w.This.stream = none) :
    client_Start e w = ⟨AUDCLNT_E_NOT_INITIALIZED, w, ()⟩ := by
  simp [client_Start, hs]

theorem Start_engine_failed (e : Env) (w : World) (s : stream_handle)
    (hs : w.This.stream = some s) (hst : SUCCEEDED (e.start s) = false) :
    client_Start e w = ⟨e.start s, w.call (Call.start s), ()⟩ := by
  simp [client_Start, hs, hst]

theorem Start_thread_exists (e : Env) (w : World) (s : stream_handle) (t : HANDLE)
    (hs : w.This.stream = some s) (ht : w.This.timer_thread = some t) :
    client_Start e w = ⟨e.start s, w.call (Call.start s), ()⟩ := by
  simp [client_Start, hs, ht, World.call]

theorem Start_spawn (e : Env) (w : World) (s : stream_handle) (t : HANDLE)
    (hs : w.This.stream = some s) (ht : w.This.timer_thread = none)
    (hst : SUCCEEDED (e.start s) = true) (hct : e.CreateThread = some t) :
    client_Start e w =
      ⟨e.start s,
        { This := { w.This with timer_thread := some t },
          calls := w.calls ++
            [Call.start s, Call.CreateThread (some t), Call.SetThreadPriority t] }, ()⟩ := by
  simp [client_Start, hs, ht, hst, hct, World.call]

theorem Start_spawn_failed (e : Env) (w : World) (s : stream_handle)
    (hs : w.This.stream = some s) (ht : w.This.timer_thread = none)
    (hst : SUCCEEDED (e.start s) = true) (hct : e.CreateThread = none) :
    client_Start e w =
      ⟨E_FAIL,
        { This := { w.This with timer_thread := none },
          calls := w.calls ++ [Call.start s, Call.CreateThread none, Call.stop s] }, ()⟩ := by
  simp [client_Start, client_Stop, hs, ht, hst, hct, World.call]

/-- Writing back the value a field already has leaves the client as it is. -/
theorem timer_thread_same (This : audio_client) (t : Option HANDLE)
    (h : This.timer_thread = t) : { This with timer_thread := t } = This := by
  cases This
  simp_all

theorem E_FAIL_failed : SUCCEEDED E_FAIL = false := by decide

theorem NOT_INITIALIZED_failed : SUCCEEDED AUDCLNT_E_NOT_INITIALIZED = false := by decide

/-- C8: when the engine stream is present, no timer thread exists, the engine
start succeeds and `CreateThread` fails, `Start` issues `start`, the failed
`CreateThread` and then `stop`, returns the failure `E_FAIL` and leaves the
client, `timer_thread` included, as it was; and whenever `Start` returns a
success status, a timer thread is present afterwards. -/
theorem Start_all_or_nothing (e : Env) (w : World) :
    (∀ s, w.This.stream = some s → w.This.timer_thread = none →
        SUCCEEDED (e.start s) = true → e.CreateThread = none →
      (client_Start e w).world.calls
          = w.calls ++ [Call.start s, Call.CreateThread none, Call.stop s] ∧
        (client_Start e w).hr = E_FAIL ∧
        SUCCEEDED (client_Start e w).hr = false ∧
        (client_Start e w).world.This.timer_thread = none ∧
        (client_Start e w).world.This = w.This) ∧
    (SUCCEEDED (client_Start e w).hr = true →
      (client_Start e w).world.This.timer_thread.isSome = true) := by
  constructor
  · intro s hs ht hst hct
    rw [Start_spawn_failed e w s hs ht hst hct]
    exact ⟨rfl, rfl, E_FAIL_failed, rfl, timer_thread_same w.This none ht⟩
  · cases hs : w.This.stream with
    | none =>
      rw [Start_uninit e w hs]
      intro h
      have h1 : SUCCEEDED AUDCLNT_E_NOT_INITIALIZED = true := h
      rw [NOT_INITIALIZED_failed] at h1
      cases h1
    | some s =>
      cases ht : w.This.timer_thread with
      | some t =>
        rw [Start_thread_exists e w s t hs ht]
        intro _
        simp [World.call, ht]
      | none =>
        cases hst : SUCCEEDED (e.start s) with
        | false =>
          rw [Start_engine_failed e w s hs hst]
          intro h
          simp [hst] at h
        | true =>
          cases hct : e.CreateThread with
          | some t =>
            rw [Start_spawn e w s t hs ht hst hct]
            intro _
            rfl
          | none =>
            rw [Start_spawn_failed e w s hs ht hst hct]
            intro h
            have h1 : SUCCEEDED E_FAIL = true := h
            rw [E_FAIL_failed] at h1
            cases h1

/-- C8 at the stereo render client: with `CreateThread` failing, `Start` logs
`start`, `CreateThread`, `stop` and fails; with everything succeeding, `Start`
succeeds and the thread is present. -/
theorem Start_all_or_nothing_witness :
    ((client_Start env_no_thread ⟨client_render, []⟩).world.calls
        = (World.mk client_render []).calls ++
          [Call.start 1, Call.CreateThread none, Call.stop 1] ∧
      (client_Start env_no_thread ⟨client_render, []⟩).hr = E_FAIL ∧
      SUCCEEDED (client_Start env_no_thread ⟨client_render, []⟩).hr = false ∧
      (client_Start env_no_thread ⟨client_render, []⟩).world.This.timer_thread = none ∧
      (client_Start env_no_thread ⟨client_render, []⟩).world.This
        = (World.mk client_render []).This) ∧
    SUCCEEDED (client_Start env_ok ⟨client_render, []⟩).hr = true ∧
    (client_Start env_ok ⟨client_render, []⟩).world.This.timer_thread.isSome = true :=
  ⟨(Start_all_or_nothing env_no_thread ⟨client_render, []⟩).1 1 rfl rfl (by decide) rfl,
    by decide,
    (Start_all_or_nothing env_ok ⟨client_render, []⟩).2 (by decide)⟩

/-! ### Sequences of Start, Stop and Reset -/

theorem run_ops_append (pre post : List (LifecycleOp × Env)) (w : World) :
    run_ops (pre ++ post) w = run_ops post (run_ops pre w) := by
  induction pre generalizing w with
  | nil => rfl
  | cons x pre ih =>
    obtain ⟨op, e⟩ := x
    simp [run_ops, ih]

/-- `Stop` and `Reset` never touch the client and never call `CreateThread`. -/
theorem Stop_Reset_keep (e : Env) (w : World) :
    ((client_Stop e w).world.This = w.This ∧
      threads_created (client_Stop e w).world.calls = threads_created w.calls ∧
      CreateThread_calls (client_Stop e w).world.calls = CreateThread_calls w.calls) ∧
    ((client_Reset e w).world.This = w.This ∧
      threads_created (client_Reset e w).world.calls = threads_created w.calls ∧
      CreateThread_calls (client_Reset e w).world.calls = CreateThread_calls w.calls) := by
  cases hs : w.This.stream <;>
    simp [client_Stop, client_Reset, hs, World.call, threads_created, CreateThread_calls,
      List.countP_append, is_thread_created, is_CreateThread]

/-- With a timer thread present, `Start` keeps it and calls `CreateThread` no
more. -/
theorem Start_keeps_thread (e : Env) (w : World) (t : HANDLE)
    (ht : w.This.timer_thread = some t) :
    (client_Start e w).world.This = w.This ∧
    threads_created (client_Start e w).world.calls = threads_created w.calls ∧
    CreateThread_calls (client_Start e w).world.calls = CreateThread_calls w.calls := by
  cases hs : w.This.stream with
  | none => simp [Start_uninit e w hs]
  | some s =>
    simp [Start_thread_exists e w s t hs ht, World.call, threads_created, CreateThread_calls,
      List.countP_append, is_thread_created, is_CreateThread]

/-- The thread account of one `Start`: the number of threads created so far plus
the free slot of a client without a thread stays the same. -/
theorem Start_account (e : Env) (w : World) :
    threads_created (client_Start e w).world.calls + thread_slot (client_Start e w).world
      = threads_created w.calls + thread_slot w := by
  cases ht : w.This.timer_thread with
  | some t =>
    obtain ⟨h1, h2, _⟩ := Start_keeps_thread e w t ht
    simp [thread_slot, h1, h2]
  | none =>
    cases hs : w.This.stream with
    | none => simp [Start_uninit e w hs]
    | some s =>
      cases hst : SUCCEEDED (e.start s) with
      | false =>
        simp [Start_engine_failed e w s hs hst, World.call, threads_created, thread_slot,
          List.countP_append, is_thread_created]
      | true =>
        cases hct : e.CreateThread with
        | some t =>
          simp [Start_spawn e w s t hs ht hst hct, threads_created, thread_slot, ht,
            List.countP_append, List.countP_cons, is_thread_created]
        | none =>
          simp [Start_spawn_failed e w s hs ht hst hct, threads_created, thread_slot, ht,
            List.countP_append, List.countP_cons, is_thread_created]

theorem run_op_account (op : LifecycleOp) (e : Env) (w : World) :
    threads_created (run_op op e w).world.calls + thread_slot (run_op op e w).world
      = threads_created w.calls + thread_slot w := by
  cases op with
  | Start => exact Start_account e w
  | Stop =>
    obtain ⟨⟨h1, h2, _⟩, _⟩ := Stop_Reset_keep e w
    simp [run_op, thread_slot, h1, h2]
  | Reset =>
    obtain ⟨_, h1, h2, _⟩ := Stop_Reset_keep e w
    simp [run_op, thread_slot, h1, h2]

theorem run_ops_account (ops : List (LifecycleOp × Env)) (w : World) :
    threads_created (run_ops ops w).calls + thread_slot (run_ops ops w)
      = threads_created w.calls + thread_slot w := by
  induction ops generalizing w with
  | nil => rfl
  | cons x ops ih =>
    obtain ⟨op, e⟩ := x
    simp only [run_ops]
    rw [ih, run_op_account]

theorem run_op_keeps_thread (op : LifecycleOp) (e : Env) (w : World) (t : HANDLE)
    (ht : w.This.timer_thread = some t) :
    (run_op op e w).world.This.timer_thread = some t ∧
    CreateThread_calls (run_op op e w).world.calls = CreateThread_calls w.calls := by
  cases op with
  | Start =>
    obtain ⟨h1, _, h3⟩ := Start_keeps_thread e w t ht
    exact ⟨by simp [run_op, h1, ht], h3⟩
  | Stop =>
    obtain ⟨⟨h1, _, h3⟩, _⟩ := Stop_Reset_keep e w
    exact ⟨by simp [run_op, h1, ht], h3⟩
  | Reset =>
    obtain ⟨_, h1, _, h3⟩ := Stop_Reset_keep e w
    exact ⟨by simp [run_op, h1, ht], h3⟩

theorem run_ops_keeps_thread (ops : List (LifecycleOp × Env)) (w : World) (t : HANDLE)
    (ht : w.This.timer_thread = some t) :
    (run_ops ops w).This.timer_thread = some t ∧
    CreateThread_calls (run_ops ops w).calls = CreateThread_calls w.calls := by
  induction ops generalizing w with
  | nil => exact ⟨ht, rfl⟩
  | cons x ops ih =>
    obtain ⟨op, e⟩ := x
    obtain ⟨h1, h2⟩ := run_op_keeps_thread op e w t ht
    obtain ⟨h3, h4⟩ := ih (run_op op e w).world h1
    exact ⟨h3, h4.trans h2⟩

/-- C9: for every client and every finite sequence of Start, Stop and Reset
calls, with arbitrary outcomes of the engine and of `CreateThread`, the sequence
creates at most one thread; it creates one only if the client had none and has
one afterwards; and from any point of the sequence at which `timer_thread` is
present, the rest of the sequence keeps that same handle and makes no further
`CreateThread` call. -/
theorem timer_thread_created_at_most_once (ops : List (LifecycleOp × Env)) (w : World) :
    threads_created (run_ops ops w).calls ≤ threads_created w.calls + 1 ∧
    (threads_created (run_ops ops w).calls = threads_created w.calls + 1 →
      w.This.timer_thread = none ∧ (run_ops ops w).This.timer_thread.isSome = true) ∧
    (∀ pre post t, ops = pre ++ post → (run_ops pre w).This.timer_thread = some t →
      (run_ops ops w).This.timer_thread = some t ∧
      CreateThread_calls (run_ops ops w).calls
        = CreateThread_calls (run_ops pre w).calls) := by
  have hacc := run_ops_account ops w
  refine ⟨?_, ?_, ?_⟩
  · have h1 : thread_slot w ≤ 1 := by
      unfold thread_slot
      split <;> omega
    omega
  · intro h
    have h1 : thread_slot (run_ops ops w) + 1 = thread_slot w := by omega
    unfold thread_slot at h1
    cases hw : w.This.timer_thread <;> cases hr : (run_ops ops w).This.timer_thread <;>
      simp [hw, hr] at h1 ⊢
  · intro pre post t hops ht
    subst hops
    rw [run_ops_append]
    exact run_ops_keeps_thread post (run_ops pre w) t ht

/-- C9 at the stereo render client and the sequence `ops_ex`: after the first two
calls the thread is present, and the remaining four calls keep it. -/
theorem timer_thread_created_at_most_once_witness :
    threads_created (run_ops ops_ex ⟨client_render, []⟩).calls
      ≤ threads_created (World.mk client_render []).calls + 1 ∧
    (run_ops ops_ex ⟨client_render, []⟩).This.timer_thread = some 77 ∧
    CreateThread_calls (run_ops ops_ex ⟨client_render, []⟩).calls
      = CreateThread_calls (run_ops (ops_ex.take 2) ⟨client_render, []⟩).calls :=
  ⟨(timer_thread_created_at_most_once ops_ex ⟨client_render, []⟩).1,
    (timer_thread_created_at_most_once ops_ex ⟨client_render, []⟩).2.2
      (ops_ex.take 2) (ops_ex.drop 2) 77 (List.take_append_drop 2 ops_ex).symm (by decide)⟩

/-- The sequence `ops_ex`, evaluated: two `CreateThread` calls are made, the
failed one and the successful one, and one thread is created. -/
theorem timer_thread_sequence_evaluated :
    threads_created (run_ops ops_ex ⟨client_render, []⟩).calls = 1 ∧
    CreateThread_calls (run_ops ops_ex ⟨client_render, []⟩).calls = 2 ∧
    start_calls (run_ops ops_ex ⟨client_render, []⟩).calls = 4 := by
  decide

/-! ### Concurrent Start calls -/

theorem sum_update_pc {N : Nat} (g : StartPc → Nat) (pc : Fin N → StartPc) (i : Fin N)
    (x : StartPc) :
    Finset.sum Finset.univ (fun j => g (Function.update pc i x j)) + g (pc i)
      = Finset.sum Finset.univ (fun j => g (pc j)) + g x := by
  rw [← Finset.add_sum_erase Finset.univ (fun j => g (Function.update pc i x j))
      (Finset.mem_univ i),
    ← Finset.add_sum_erase Finset.univ (fun j => g (pc j)) (Finset.mem_univ i)]
  have h : Finset.sum (Finset.univ.erase i) (fun j => g (Function.update pc i x j))
      = Finset.sum (Finset.univ.erase i) (fun j => g (pc j)) := by
    apply Finset.sum_congr rfl
    intro j hj
    rw [Function.update_noteq (Finset.ne_of_mem_erase hj)]
  simp only [Function.update_same, h]
  omega

theorem started_update {N : Nat} (σ : Sys N) (w : World) (l : Option (Fin N)) (i : Fin N)
    (x : StartPc) (h : x.called_start = (σ.pc i).called_start) :
    Sys.started { world := w, lock := l, pc := Function.update σ.pc i x } = σ.started := by
  have := sum_update_pc (fun p => if p.called_start then 1 else 0) σ.pc i x
  simp only [h] at this
  unfold Sys.started
  simpa using this

theorem started_update_succ {N : Nat} (σ : Sys N) (w : World) (l : Option (Fin N))
    (i : Fin N) (x : StartPc) (h1 : (σ.pc i).called_start = false)
    (h2 : x.called_start = true) :
    Sys.started { world := w, lock := l, pc := Function.update σ.pc i x } = σ.started + 1 := by
  have := sum_update_pc (fun p => if p.called_start then 1 else 0) σ.pc i x
  simp only [h1, h2] at this
  unfold Sys.started
  simpa using this

theorem remaining_update {N : Nat} (σ : Sys N) (w : World) (l : Option (Fin N)) (i : Fin N)
    (x : StartPc) (h : x.remaining < (σ.pc i).remaining) :
    Sys.remaining { world := w, lock := l, pc := Function.update σ.pc i x } < σ.remaining := by
  have := sum_update_pc StartPc.remaining σ.pc i x
  unfold Sys.remaining
  simp only
  omega


theorem init_Inv (N : Nat) (w : World) (s : stream_handle) (hs : w.This.stream = some s) :
    Sys.Inv w s (Sys.init N w) where
  stream := hs
  mutex := by intro j; simp [Sys.init, StartPc.in_section]
  start_arg := by intro j s1 h; simp [Sys.init] at h
  no_thread := by intro j r h; simp [Sys.init] at h
  no_stop := by intro j h; simp [Sys.init] at h
  success := by intro j r h; simp [Sys.init, StartPc.result] at h
  has_thread := by intro j h; simp [Sys.init, StartPc.past_test] at h
  threads := rfl
  starts := by simp [Sys.init, Sys.started, StartPc.called_start]

/-- The invariant after one thread has moved to a new statement, from what has
to be checked for that thread and for the others. -/
theorem Inv_update {N : Nat} {w0 : World} {s : stream_handle} {σ : Sys N}
    (inv : Sys.Inv w0 s σ) (i : Fin N) (x : StartPc) (w1 : World) (l1 : Option (Fin N))
    (h_stream : w1.This.stream = some s)
    (h_mutex : x.in_section = true ↔ l1 = some i)
    (h_mutex_other : ∀ j, j ≠ i → ((σ.pc j).in_section = true ↔ l1 = some j))
    (h_arg : ∀ s1, x = StartPc.call_start s1 → s1 = s)
    (h_no_thread : ∀ r, x = StartPc.create_thread r → w1.This.timer_thread = none)
    (h_no_thread_other : ∀ j r, j ≠ i → σ.pc j = StartPc.create_thread r →
      w1.This.timer_thread = none)
    (h_no_stop : x ≠ StartPc.stop_again)
    (h_success : ∀ r, x.result = some r → SUCCEEDED r = true)
    (h_has : x.past_test = true → w1.This.timer_thread.isSome = true)
    (h_has_other : ∀ j, j ≠ i → (σ.pc j).past_test = true →
      w1.This.timer_thread.isSome = true)
    (h_threads : threads_created w1.calls + thread_slot w1
      = threads_created w0.calls + thread_slot w0)
    (h_starts : start_calls w1.calls = start_calls w0.calls +
      Sys.started { world := w1, lock := l1, pc := Function.update σ.pc i x }) :
    Sys.Inv w0 s { world := w1, lock := l1, pc := Function.update σ.pc i x } where
  stream := h_stream
  mutex := by
    intro j
    by_cases hj : j = i
    · subst hj; simpa using h_mutex
    · simpa [Function.update_noteq hj] using h_mutex_other j hj
  start_arg := by
    intro j s1
    by_cases hj : j = i
    · subst hj; simpa using h_arg s1
    · simpa [Function.update_noteq hj] using inv.start_arg j s1
  no_thread := by
    intro j r
    by_cases hj : j = i
    · subst hj; simpa using h_no_thread r
    · simpa [Function.update_noteq hj] using h_no_thread_other j r hj
  no_stop := by
    intro j
    by_cases hj : j = i
    · subst hj; simpa using h_no_stop
    · simpa [Function.update_noteq hj] using inv.no_stop j
  success := by
    intro j r
    by_cases hj : j = i
    · subst hj; simpa using h_success r
    · simpa [Function.update_noteq hj] using inv.success j r
  has_thread := by
    intro j
    by_cases hj : j = i
    · subst hj; simpa using h_has
    · simpa [Function.update_noteq hj] using h_has_other j hj
  threads := h_threads
  starts := h_starts

/-- While a thread is inside the section, every other thread is outside. -/
theorem others_outside {N : Nat} {w0 : World} {s : stream_handle} {σ : Sys N}
    (inv : Sys.Inv w0 s σ) (i : Fin N) (hi : (σ.pc i).in_section = true) (j : Fin N)
    (hj : j ≠ i) : (σ.pc j).in_section = false := by
  have h1 : σ.lock = some i := (inv.mutex i).mp hi
  cases h : (σ.pc j).in_section with
  | false => rfl
  | true =>
    have h2 : σ.lock = some j := (inv.mutex j).mp h
    rw [h1] at h2
    exact absurd (Option.some.inj h2).symm hj


theorem log_start (calls : List Call) (s : stream_handle) :
    threads_created (calls ++ [Call.start s]) = threads_created calls ∧
    start_calls (calls ++ [Call.start s]) = start_calls calls + 1 := by
  simp [threads_created, start_calls, List.countP_append, is_thread_created, is_start]

theorem log_CreateThread (calls : List Call) (t : HANDLE) :
    threads_created (calls ++ [Call.CreateThread (some t)]) = threads_created calls + 1 ∧
    start_calls (calls ++ [Call.CreateThread (some t)]) = start_calls calls := by
  simp [threads_created, start_calls, List.countP_append, is_thread_created, is_start]

theorem log_SetThreadPriority (calls : List Call) (t : HANDLE) :
    threads_created (calls ++ [Call.SetThreadPriority t]) = threads_created calls ∧
    start_calls (calls ++ [Call.SetThreadPriority t]) = start_calls calls := by
  simp [threads_created, start_calls, List.countP_append, is_thread_created, is_start]

/-- One statement of any thread keeps the invariant, when every engine start
and every `CreateThread` succeeds. -/
theorem step_Inv {N : Nat} (envs : Fin N → Env) (w0 : World) (s : stream_handle)
    (hstart : ∀ i, SUCCEEDED ((envs i).start s) = true)
    (hthread : ∀ i, (envs i).CreateThread.isSome = true)
    (i : Fin N) (σ : Sys N) (inv : Sys.Inv w0 s σ) : Sys.Inv w0 s (Sys.step envs i σ) := by
  have out := others_outside inv i
  unfold Sys.step
  cases h : σ.pc i with
  | entry =>
    simp only [sessions_lock]
    cases hl : σ.lock with
    | some k =>
      simp only
      exact inv
    | none =>
      simp only
      refine Inv_update inv i StartPc.locked σ.world (some i) inv.stream
        (by simp [StartPc.in_section]) ?_ (by simp) (by simp)
        (fun j r _ hj => inv.no_thread j r hj) (by simp) (by simp [StartPc.result])
        (by simp [StartPc.past_test]) (fun j _ => inv.has_thread j) inv.threads ?_
      · intro j hj
        rw [inv.mutex j, hl]
        simp [Ne.symm hj]
      · rw [started_update σ σ.world (some i) i StartPc.locked
          (by simp [h, StartPc.called_start])]
        exact inv.starts
  | locked =>
    have hin : (σ.pc i).in_section = true := by simp [h, StartPc.in_section]
    have hl := (inv.mutex i).mp hin
    simp only [inv.stream]
    refine Inv_update inv i (StartPc.call_start s) σ.world σ.lock inv.stream
      (by simp [StartPc.in_section, hl]) (fun j _ => inv.mutex j) (by simp) (by simp)
      (fun j r _ hj => inv.no_thread j r hj) (by simp) (by simp [StartPc.result])
      (by simp [StartPc.past_test]) (fun j _ => inv.has_thread j) inv.threads ?_
    rw [started_update σ σ.world σ.lock i _ (by simp [h, StartPc.called_start])]
    exact inv.starts
  | call_start s1 =>
    have hin : (σ.pc i).in_section = true := by simp [h, StartPc.in_section]
    have hl := (inv.mutex i).mp hin
    have hs1 : s1 = s := inv.start_arg i s1 h
    subst hs1
    simp only
    refine Inv_update inv i _ (σ.world.call (Call.start s1)) σ.lock inv.stream
      (by simp [StartPc.in_section, hl]) (fun j _ => inv.mutex j) (by simp) (by simp)
      (fun j r _ hj => inv.no_thread j r hj) (by simp) ?_
      (by simp [StartPc.past_test]) (fun j _ => inv.has_thread j) ?_ ?_
    · intro r hr
      simp only [StartPc.result, Option.some.injEq] at hr
      rw [← hr]
      exact hstart i
    · simp only [World.call, (log_start σ.world.calls s1).1]
      exact inv.threads
    · rw [started_update_succ σ _ σ.lock i _ (by simp [h, StartPc.called_start])
        (by simp [StartPc.called_start])]
      simp only [World.call, (log_start σ.world.calls s1).2, inv.starts]
      omega
  | test_thread r =>
    have hin : (σ.pc i).in_section = true := by simp [h, StartPc.in_section]
    have hl := (inv.mutex i).mp hin
    have hr : SUCCEEDED r = true := inv.success i r (by simp [h, StartPc.result])
    cases ht : σ.world.This.timer_thread with
    | none =>
      simp only [hr, ht, Option.isNone_none, Bool.and_self, if_true]
      refine Inv_update inv i _ σ.world σ.lock inv.stream
        (by simp [StartPc.in_section, hl]) (fun j _ => inv.mutex j) (by simp) (fun _ _ => ht)
        (fun j r _ hj => inv.no_thread j r hj) (by simp) ?_
        (by simp [StartPc.past_test]) (fun j _ => inv.has_thread j) inv.threads ?_
      · intro r1 hr1
        simp only [StartPc.result, Option.some.injEq] at hr1
        rw [← hr1]
        exact hr
      · rw [started_update σ σ.world σ.lock i _ (by simp [h, StartPc.called_start])]
        exact inv.starts
    | some t =>
      simp only [hr, ht, Option.isNone_some, Bool.and_false, Bool.false_eq_true, if_false]
      refine Inv_update inv i _ σ.world σ.lock inv.stream
        (by simp [StartPc.in_section, hl]) (fun j _ => inv.mutex j) (by simp) (by simp)
        (fun j r _ hj => inv.no_thread j r hj) (by simp) ?_
        (by simp [ht]) (fun j _ => inv.has_thread j) inv.threads ?_
      · intro r1 hr1
        simp only [StartPc.result, Option.some.injEq] at hr1
        rw [← hr1]
        exact hr
      · rw [started_update σ σ.world σ.lock i _ (by simp [h, StartPc.called_start])]
        exact inv.starts
  | create_thread r =>
    have hin : (σ.pc i).in_section = true := by simp [h, StartPc.in_section]
    have hl := (inv.mutex i).mp hin
    have hr : SUCCEEDED r = true := inv.success i r (by simp [h, StartPc.result])
    have ht : σ.world.This.timer_thread = none := inv.no_thread i r h
    obtain ⟨t, hct⟩ := Option.isSome_iff_exists.mp (hthread i)
    simp only [hct]
    refine Inv_update inv i _ _ σ.lock inv.stream
      (by simp [StartPc.in_section, hl]) (fun j _ => inv.mutex j) (by simp) (by simp)
      ?_ (by simp) ?_ (by simp) (by simp) ?_ ?_
    · intro j r1 hj hpc
      have := out hin j hj
      simp [hpc, StartPc.in_section] at this
    · intro r1 hr1
      simp only [StartPc.result, Option.some.injEq] at hr1
      rw [← hr1]
      exact hr
    · have := inv.threads
      simp only [thread_slot, ht, (log_CreateThread σ.world.calls t).1] at this ⊢
      simp at this ⊢
      omega
    · rw [started_update σ _ σ.lock i _ (by simp [h, StartPc.called_start])]
      simp only [(log_CreateThread σ.world.calls t).2]
      exact inv.starts
  | set_priority r t =>
    have hin : (σ.pc i).in_section = true := by simp [h, StartPc.in_section]
    have hl := (inv.mutex i).mp hin
    have hr : SUCCEEDED r = true := inv.success i r (by simp [h, StartPc.result])
    have hth := inv.has_thread i (by simp [h, StartPc.past_test])
    simp only
    refine Inv_update inv i _ (σ.world.call (Call.SetThreadPriority t)) σ.lock inv.stream
      (by simp [StartPc.in_section, hl]) (fun j _ => inv.mutex j) (by simp) (by simp)
      (fun j r _ hj => inv.no_thread j r hj) (by simp) ?_
      (fun _ => hth) (fun j _ => inv.has_thread j) ?_ ?_
    · intro r1 hr1
      simp only [StartPc.result, Option.some.injEq] at hr1
      rw [← hr1]
      exact hr
    · have := inv.threads
      simp only [World.call, thread_slot, (log_SetThreadPriority σ.world.calls t).1] at this ⊢
      exact this
    · rw [started_update σ _ σ.lock i _ (by simp [h, StartPc.called_start])]
      simp only [World.call, (log_SetThreadPriority σ.world.calls t).2]
      exact inv.starts
  | stop_again => exact absurd h (inv.no_stop i)
  | unlock r =>
    have hin : (σ.pc i).in_section = true := by simp [h, StartPc.in_section]
    have hr : SUCCEEDED r = true := inv.success i r (by simp [h, StartPc.result])
    have hth := inv.has_thread i (by simp [h, StartPc.past_test])
    simp only [sessions_unlock]
    refine Inv_update inv i _ σ.world none inv.stream
      (by simp [StartPc.in_section]) ?_ (by simp) (by simp)
      (fun j r _ hj => inv.no_thread j r hj) (by simp) ?_
      (fun _ => hth) (fun j _ => inv.has_thread j) inv.threads ?_
    · intro j hj
      simp [out hin j hj]
    · intro r1 hr1
      simp only [StartPc.result, Option.some.injEq] at hr1
      rw [← hr1]
      exact hr
    · rw [started_update σ _ none i _ (by simp [h, StartPc.called_start])]
      exact inv.starts
  | returned r =>
    simp only
    exact inv


theorem run_Inv {N : Nat} (envs : Fin N → Env) (w0 : World) (s : stream_handle)
    (hstart : ∀ i, SUCCEEDED ((envs i).start s) = true)
    (hthread : ∀ i, (envs i).CreateThread.isSome = true)
    (sched : List (Fin N)) (σ : Sys N) (inv : Sys.Inv w0 s σ) :
    Sys.Inv w0 s (Sys.run envs sched σ) := by
  induction sched generalizing σ with
  | nil => exact inv
  | cons i rest ih => exact ih _ (step_Inv envs w0 s hstart hthread i σ inv)

theorem run_append {N : Nat} (envs : Fin N → Env) (a b : List (Fin N)) (σ : Sys N) :
    Sys.run envs (a ++ b) σ = Sys.run envs b (Sys.run envs a σ) := by
  induction a generalizing σ with
  | nil => rfl
  | cons i rest ih => simp [Sys.run, ih]

/-- A thread that has not returned, and is not waiting for a lock that is held,
has fewer statements left after its step. -/
theorem step_remaining {N : Nat} (envs : Fin N → Env) (i : Fin N) (σ : Sys N)
    (hret : ∀ r, σ.pc i ≠ StartPc.returned r)
    (hlock : σ.pc i = StartPc.entry → σ.lock = none) :
    (Sys.step envs i σ).remaining < σ.remaining := by
  unfold Sys.step
  cases h : σ.pc i with
  | entry =>
    simp only [sessions_lock, hlock h]
    exact remaining_update σ _ _ i _ (by simp [h, StartPc.remaining])
  | locked =>
    cases hs : σ.world.This.stream <;>
      exact remaining_update σ _ _ i _ (by simp [h, StartPc.remaining])
  | call_start s1 => exact remaining_update σ _ _ i _ (by simp [h, StartPc.remaining])
  | test_thread r =>
    simp only
    split <;> exact remaining_update σ _ _ i _ (by simp [h, StartPc.remaining])
  | create_thread r =>
    cases hc : (envs i).CreateThread <;>
      exact remaining_update σ _ _ i _ (by simp [h, StartPc.remaining])
  | set_priority r t => exact remaining_update σ _ _ i _ (by simp [h, StartPc.remaining])
  | stop_again => exact remaining_update σ _ _ i _ (by simp [h, StartPc.remaining])
  | unlock r => exact remaining_update σ _ _ i _ (by simp [h, StartPc.remaining])
  | returned r => exact absurd h (hret r)

/-- No deadlock: while some thread has not returned, some thread can run. -/
theorem progress {N : Nat} {w0 : World} {s : stream_handle} {σ : Sys N}
    (inv : Sys.Inv w0 s σ) (h : ¬ σ.all_returned) :
    ∃ i, (∀ r, σ.pc i ≠ StartPc.returned r) ∧
      (σ.pc i = StartPc.entry → σ.lock = none) := by
  cases hl : σ.lock with
  | some i =>
    have hin := (inv.mutex i).mpr hl
    refine ⟨i, ?_, ?_⟩
    · intro r hr
      simp [hr, StartPc.in_section] at hin
    · intro he
      simp [he, StartPc.in_section] at hin
  | none =>
    unfold Sys.all_returned at h
    push_neg at h
    obtain ⟨j, hj⟩ := h
    exact ⟨j, hj, fun _ => rfl⟩

/-- Every reachable state can be run to the end. -/
theorem completes {N : Nat} (envs : Fin N → Env) (w0 : World) (s : stream_handle)
    (hstart : ∀ i, SUCCEEDED ((envs i).start s) = true)
    (hthread : ∀ i, (envs i).CreateThread.isSome = true) :
    ∀ (n : Nat) (σ : Sys N), Sys.Inv w0 s σ → σ.remaining ≤ n →
      ∃ more, (Sys.run envs more σ).all_returned := by
  intro n
  induction n with
  | zero =>
    intro σ inv hn
    by_cases h : σ.all_returned
    · exact ⟨[], h⟩
    · obtain ⟨i, h1, h2⟩ := progress inv h
      have := step_remaining envs i σ h1 h2
      omega
  | succ n ih =>
    intro σ inv hn
    by_cases h : σ.all_returned
    · exact ⟨[], h⟩
    · obtain ⟨i, h1, h2⟩ := progress inv h
      have hlt := step_remaining envs i σ h1 h2
      obtain ⟨more, hmore⟩ := ih (Sys.step envs i σ)
        (step_Inv envs w0 s hstart hthread i σ inv) (by omega)
      exact ⟨i :: more, hmore⟩

/-- When every thread has returned, every thread is past its `start` call. -/
theorem started_all {N : Nat} (σ : Sys N) (h : σ.all_returned) : σ.started = N := by
  unfold Sys.started
  have : ∀ j, (if (σ.pc j).called_start = true then 1 else 0) = 1 := by
    intro j
    obtain ⟨r, hr⟩ := h j
    simp [hr, StartPc.called_start]
  simp [this]

/-- A thread that runs `client_Start` without any other thread in between: its
seven statements take the world to the world after `client_Start`, and it
returns the status of `client_Start`. -/
theorem Start_alone {N : Nat} (envs : Fin N → Env) (i : Fin N) (σ : Sys N)
    (h : σ.pc i = StartPc.entry) (hl : σ.lock = none) :
    Sys.run envs (List.replicate 7 i) σ =
      { world := (client_Start (envs i) σ.world).world,
        lock := none,
        pc := Function.update σ.pc i
          (StartPc.returned (client_Start (envs i) σ.world).hr) } := by
  cases hs : σ.world.This.stream with
  | none =>
    simp [List.replicate, Sys.run, Sys.step, sessions_lock, sessions_unlock, h, hl, hs,
      Start_uninit (envs i) σ.world hs]
  | some s =>
    cases ht : σ.world.This.timer_thread with
    | some t =>
      simp [List.replicate, Sys.run, Sys.step, sessions_lock, sessions_unlock, h, hl, hs, ht,
        Start_thread_exists (envs i) σ.world s t hs ht, World.call]
    | none =>
      cases hst : SUCCEEDED ((envs i).start s) with
      | false =>
        simp [List.replicate, Sys.run, Sys.step, sessions_lock, sessions_unlock, h, hl, hs, ht,
          hst, Start_engine_failed (envs i) σ.world s hs hst, World.call]
      | true =>
        cases hct : (envs i).CreateThread with
        | some t =>
          simp [List.replicate, Sys.run, Sys.step, sessions_lock, sessions_unlock, h, hl, hs,
            ht, hst, hct, Start_spawn (envs i) σ.world s t hs ht hst hct, World.call]
        | none =>
          simp [List.replicate, Sys.run, Sys.step, sessions_lock, sessions_unlock, h, hl, hs,
            ht, hst, hct, Start_spawn_failed (envs i) σ.world s hs ht hst hct, World.call,
            client_Stop]


theorem started_le {N : Nat} (σ : Sys N) : σ.started ≤ N := by
  unfold Sys.started
  calc Finset.sum Finset.univ (fun j => if (σ.pc j).called_start = true then 1 else 0)
      ≤ Finset.sum (Finset.univ : Finset (Fin N)) (fun _ => 1) := by
        apply Finset.sum_le_sum
        intro j _
        split <;> omega
    _ = N := by simp

/-- C10: `N ≥ 1` threads call `Start` at the same time on a client whose engine
stream is present, every engine start and every `CreateThread` succeeding.  In
every interleaving of their statements, at every moment, at most one thread has
been created and at most `N` engine starts have been issued; once all `N` calls
have returned, every one of them returned a success status, the timer thread is
present, exactly one thread was created if the client had none (and none if it
had one), and the engine start was issued `N` times; and every interleaving can
be continued until all `N` calls have returned. -/
theorem concurrent_Start_one_thread (N : Nat) (hN : 1 ≤ N) (envs : Fin N → Env) (w : World)
    (s : stream_handle) (hs : w.This.stream = some s)
    (hstart : ∀ i, SUCCEEDED ((envs i).start s) = true)
    (hthread : ∀ i, (envs i).CreateThread.isSome = true) (sched : List (Fin N)) :
    threads_created (Sys.run envs sched (Sys.init N w)).world.calls
      ≤ threads_created w.calls + 1 ∧
    start_calls (Sys.run envs sched (Sys.init N w)).world.calls ≤ start_calls w.calls + N ∧
    ((Sys.run envs sched (Sys.init N w)).all_returned →
      (∀ j r, (Sys.run envs sched (Sys.init N w)).pc j = StartPc.returned r →
        SUCCEEDED r = true) ∧
      (Sys.run envs sched (Sys.init N w)).world.This.timer_thread.isSome = true ∧
      (w.This.timer_thread = none →
        threads_created (Sys.run envs sched (Sys.init N w)).world.calls
          = threads_created w.calls + 1) ∧
      (w.This.timer_thread.isSome = true →
        threads_created (Sys.run envs sched (Sys.init N w)).world.calls
          = threads_created w.calls) ∧
      start_calls (Sys.run envs sched (Sys.init N w)).world.calls
        = start_calls w.calls + N) ∧
    (∃ more, (Sys.run envs (sched ++ more) (Sys.init N w)).all_returned) := by
  have inv := run_Inv envs w s hstart hthread sched _ (init_Inv N w s hs)
  have hthreads := inv.threads
  have hstarts := inv.starts
  have hle := started_le (Sys.run envs sched (Sys.init N w))
  have hslot : thread_slot w ≤ 1 := by
    unfold thread_slot
    split <;> omega
  refine ⟨by omega, by omega, ?_, ?_⟩
  · intro hall
    have hsome : (Sys.run envs sched (Sys.init N w)).world.This.timer_thread.isSome = true := by
      obtain ⟨r, hr⟩ := hall ⟨0, hN⟩
      exact inv.has_thread ⟨0, hN⟩ (by simp [hr, StartPc.past_test])
    have hslot0 : thread_slot (Sys.run envs sched (Sys.init N w)).world = 0 := by
      simp [thread_slot, hsome]
    refine ⟨?_, hsome, ?_, ?_, ?_⟩
    · intro j r hr
      exact inv.success j r (by simp [hr, StartPc.result])
    · intro hnone
      have : thread_slot w = 1 := by simp [thread_slot, hnone]
      omega
    · intro hpres
      have : thread_slot w = 0 := by simp [thread_slot, hpres]
      omega
    · rw [hstarts, started_all _ hall]
  · obtain ⟨more, hmore⟩ := completes envs w s hstart hthread _ _ inv (le_refl _)
    exact ⟨more, by rw [run_append]; exact hmore⟩

/-- C10 with two threads on the stereo render client, interleaved so that the
second thread reaches `sessions_lock()` while the first holds the lock. -/
theorem concurrent_Start_one_thread_witness :
    (1 : Nat) ≤ 2 ∧
    (World.mk client_render []).This.stream = some 1 ∧
    (∀ i : Fin 2, SUCCEEDED (((fun _ => env_ok) i : Env).start 1) = true) ∧
    (∀ i : Fin 2, ((fun _ => env_ok) i : Env).CreateThread.isSome = true) ∧
    threads_created (Sys.run (fun _ => env_ok) [0, 1, 0, 1, 0, 0, 1, 0, 0, 0, 1, 1, 1, 1, 1, 1]
        (Sys.init 2 ⟨client_render, []⟩)).world.calls
      ≤ threads_created (World.mk client_render []).calls + 1 ∧
    start_calls (Sys.run (fun _ => env_ok) [0, 1, 0, 1, 0, 0, 1, 0, 0, 0, 1, 1, 1, 1, 1, 1]
        (Sys.init 2 ⟨client_render, []⟩)).world.calls
      ≤ start_calls (World.mk client_render []).calls + 2 :=
  ⟨by decide, rfl, fun _ => rfl, fun _ => rfl,
    (concurrent_Start_one_thread 2 (by decide) (fun _ => env_ok) ⟨client_render, []⟩ 1 rfl
      (fun _ => rfl) (fun _ => rfl)
      [0, 1, 0, 1, 0, 0, 1, 0, 0, 0, 1, 1, 1, 1, 1, 1]).1,
    (concurrent_Start_one_thread 2 (by decide) (fun _ => env_ok) ⟨client_render, []⟩ 1 rfl
      (fun _ => rfl) (fun _ => rfl)
      [0, 1, 0, 1, 0, 0, 1, 0, 0, 0, 1, 1, 1, 1, 1, 1]).2.1⟩

/-- The interleaving of the witness, evaluated: both calls return `S_OK`, one
thread is created, and the engine start is issued twice. -/
theorem concurrent_Start_evaluated :
    (Sys.run (fun _ => env_ok) [0, 1, 0, 1, 0, 0, 1, 0, 0, 0, 1, 1, 1, 1, 1, 1]
        (Sys.init 2 ⟨client_render, []⟩)).pc 0 = StartPc.returned S_OK ∧
    (Sys.run (fun _ => env_ok) [0, 1, 0, 1, 0, 0, 1, 0, 0, 0, 1, 1, 1, 1, 1, 1]
        (Sys.init 2 ⟨client_render, []⟩)).pc 1 = StartPc.returned S_OK ∧
    (Sys.run (fun _ => env_ok) [0, 1, 0, 1, 0, 0, 1, 0, 0, 0, 1, 1, 1, 1, 1, 1]
        (Sys.init 2 ⟨client_render, []⟩)).world.calls =
      [Call.start 1, Call.CreateThread (some 77), Call.SetThreadPriority 77, Call.start 1] := by
  decide

/-! ### Lifecycle and queries before initialization -/

theorem E_POINTER_failed : SUCCEEDED E_POINTER = false := by decide

theorem E_INVALIDARG_failed : SUCCEEDED E_INVALIDARG = false := by decide

/-- C11: with the engine stream absent, Start, Stop, Reset, SetEventHandle with
a non-null event, and GetBufferSize, GetStreamLatency and GetCurrentPadding with
a non-null out-pointer return `AUDCLNT_E_NOT_INITIALIZED` and leave the world as
it was (no call is logged, no thread is created); and in every world, the three
queries with a null out-pointer return the failure `E_POINTER` and
SetEventHandle with a null event returns the failure `E_INVALIDARG`, again with
the world as it was. -/
theorem lifecycle_ops_require_stream (e : Env) (w : World) (h : w.This.stream = none)
    (event : HANDLE) (frames padding : UINT32) (latency : REFERENCE_TIME) :
    ((client_Start e w).hr = AUDCLNT_E_NOT_INITIALIZED ∧ (client_Start e w).world = w) ∧
    ((client_Stop e w).hr = AUDCLNT_E_NOT_INITIALIZED ∧ (client_Stop e w).world = w) ∧
    ((client_Reset e w).hr = AUDCLNT_E_NOT_INITIALIZED ∧ (client_Reset e w).world = w) ∧
    ((client_SetEventHandle e w (some event)).hr = AUDCLNT_E_NOT_INITIALIZED ∧
      (client_SetEventHandle e w (some event)).world = w) ∧
    ((client_GetBufferSize e w (some frames)).hr = AUDCLNT_E_NOT_INITIALIZED ∧
      (client_GetBufferSize e w (some frames)).world = w) ∧
    ((client_GetStreamLatency e w (some latency)).hr = AUDCLNT_E_NOT_INITIALIZED ∧
      (client_GetStreamLatency e w (some latency)).world = w) ∧
    ((client_GetCurrentPadding e w (some padding)).hr = AUDCLNT_E_NOT_INITIALIZED ∧
      (client_GetCurrentPadding e w (some padding)).world = w) ∧
    (∀ w1 : World,
      ((client_GetBufferSize e w1 none).hr = E_POINTER ∧
        (client_GetBufferSize e w1 none).world = w1) ∧
      ((client_GetStreamLatency e w1 none).hr = E_POINTER ∧
        (client_GetStreamLatency e w1 none).world = w1) ∧
      ((client_GetCurrentPadding e w1 none).hr = E_POINTER ∧
        (client_GetCurrentPadding e w1 none).world = w1) ∧
      ((client_SetEventHandle e w1 none).hr = E_INVALIDARG ∧
        (client_SetEventHandle e w1 none).world = w1)) ∧
    SUCCEEDED E_POINTER = false ∧ SUCCEEDED E_INVALIDARG = false := by
  refine ⟨?_, ?_, ?_, ?_, ?_, ?_, ?_, ?_, E_POINTER_failed, E_INVALIDARG_failed⟩
  · simp [Start_uninit e w h]
  · simp [client_Stop, h]
  · simp [client_Reset, h]
  · simp [client_SetEventHandle, h]
  · simp [client_GetBufferSize, h]
  · simp [client_GetStreamLatency, h]
  · simp [client_GetCurrentPadding, h]
  · intro w1
    simp [client_GetBufferSize, client_GetStreamLatency, client_GetCurrentPadding,
      client_SetEventHandle]

/-- C11 at a client that was never initialized. -/
theorem lifecycle_ops_require_stream_witness :
    (World.mk client_new []).This.stream = none ∧
    ((client_Start env_ok ⟨client_new, []⟩).hr = AUDCLNT_E_NOT_INITIALIZED ∧
      (client_Start env_ok ⟨client_new, []⟩).world = ⟨client_new, []⟩) ∧
    ((client_Stop env_ok ⟨client_new, []⟩).hr = AUDCLNT_E_NOT_INITIALIZED ∧
      (client_Stop env_ok ⟨client_new, []⟩).world = ⟨client_new, []⟩) ∧
    ((client_Reset env_ok ⟨client_new, []⟩).hr = AUDCLNT_E_NOT_INITIALIZED ∧
      (client_Reset env_ok ⟨client_new, []⟩).world = ⟨client_new, []⟩) ∧
    ((client_SetEventHandle env_ok ⟨client_new, []⟩ (some 33)).hr
        = AUDCLNT_E_NOT_INITIALIZED ∧
      (client_SetEventHandle env_ok ⟨client_new, []⟩ (some 33)).world
        = ⟨client_new, []⟩) ∧
    ((client_GetBufferSize env_ok ⟨client_new, []⟩ (some 0)).hr = AUDCLNT_E_NOT_INITIALIZED ∧
      (client_GetBufferSize env_ok ⟨client_new, []⟩ (some 0)).world = ⟨client_new, []⟩) ∧
    ((client_GetStreamLatency env_ok ⟨client_new, []⟩ (some 0)).hr
        = AUDCLNT_E_NOT_INITIALIZED ∧
      (client_GetStreamLatency env_ok ⟨client_new, []⟩ (some 0)).world
        = ⟨client_new, []⟩) ∧
    ((client_GetCurrentPadding env_ok ⟨client_new, []⟩ (some 0)).hr
        = AUDCLNT_E_NOT_INITIALIZED ∧
      (client_GetCurrentPadding env_ok ⟨client_new, []⟩ (some 0)).world
        = ⟨client_new, []⟩) ∧
    (∀ w1 : World,
      ((client_GetBufferSize env_ok w1 none).hr = E_POINTER ∧
        (client_GetBufferSize env_ok w1 none).world = w1) ∧
      ((client_GetStreamLatency env_ok w1 none).hr = E_POINTER ∧
        (client_GetStreamLatency env_ok w1 none).world = w1) ∧
      ((client_GetCurrentPadding env_ok w1 none).hr = E_POINTER ∧
        (client_GetCurrentPadding env_ok w1 none).world = w1) ∧
      ((client_SetEventHandle env_ok w1 none).hr = E_INVALIDARG ∧
        (client_SetEventHandle env_ok w1 none).world = w1)) ∧
    SUCCEEDED E_POINTER = false ∧ SUCCEEDED E_INVALIDARG = false :=
  ⟨rfl, lifecycle_ops_require_stream env_ok ⟨client_new, []⟩ rfl 33 0 0 0⟩

/-! ### Client properties -/

theorem status_codes_distinct :
    S_OK ≠ E_INVALIDARG ∧ AUDCLNT_E_ENDPOINT_OFFLOAD_NOT_CAPABLE ≠ E_INVALIDARG := by
  decide

/-- C12: for a non-null properties structure, `SetClientProperties` returns
`E_INVALIDARG` exactly when `cbSize` equals neither of the two layout sizes;
with one of the two sizes it returns `AUDCLNT_E_ENDPOINT_OFFLOAD_NOT_CAPABLE`
when `bIsOffload` is non-zero and `S_OK` when it is zero; and in every case the
world (the client and the log of issued calls) is as before. -/
theorem SetClientProperties_contract (size size_win8 : Nat) (w : World)
    (prop : AudioClientProperties) :
    ((client_SetClientProperties size size_win8 w (some prop)).hr = E_INVALIDARG ↔
      (prop.cbSize ≠ size ∧ prop.cbSize ≠ size_win8)) ∧
    ((prop.cbSize = size ∨ prop.cbSize = size_win8) →
      (prop.bIsOffload ≠ 0 →
        (client_SetClientProperties size size_win8 w (some prop)).hr
          = AUDCLNT_E_ENDPOINT_OFFLOAD_NOT_CAPABLE) ∧
      (prop.bIsOffload = 0 →
        (client_SetClientProperties size size_win8 w (some prop)).hr = S_OK)) ∧
    (client_SetClientProperties size size_win8 w (some prop)).world = w := by
  obtain ⟨h1, h2⟩ := status_codes_distinct
  by_cases hs : prop.cbSize = size ∨ prop.cbSize = size_win8
  · have hn : ¬ (prop.cbSize ≠ size ∧ prop.cbSize ≠ size_win8) := by
      rintro ⟨n1, n2⟩
      rcases hs with hs | hs
      · exact n1 hs
      · exact n2 hs
    by_cases ho : prop.bIsOffload = 0
    · have heq : client_SetClientProperties size size_win8 w (some prop) = ⟨S_OK, w, ()⟩ := by
        simp [client_SetClientProperties, hs, ho]
      rw [heq]
      exact ⟨⟨fun h => absurd h h1, fun h => absurd h hn⟩,
        fun _ => ⟨fun h => absurd ho h, fun _ => rfl⟩, rfl⟩
    · have heq : client_SetClientProperties size size_win8 w (some prop)
          = ⟨AUDCLNT_E_ENDPOINT_OFFLOAD_NOT_CAPABLE, w, ()⟩ := by
        simp [client_SetClientProperties, hs, ho]
      rw [heq]
      exact ⟨⟨fun h => absurd h h2, fun h => absurd h hn⟩,
        fun _ => ⟨fun _ => rfl, fun h => absurd h ho⟩, rfl⟩
  · have heq : client_SetClientProperties size size_win8 w (some prop)
        = ⟨E_INVALIDARG, w, ()⟩ := by
      simp [client_SetClientProperties, hs]
    rw [heq]
    exact ⟨⟨fun _ => ⟨fun h => hs (Or.inl h), fun h => hs (Or.inr h)⟩, fun _ => rfl⟩,
      fun h => absurd h hs, rfl⟩

/-- C12 with the layout sizes 16 and 12, at a structure of the older layout
with the offload flag set. -/
theorem SetClientProperties_contract_witness :
    ((AudioClientProperties.mk 12 1 3 0).cbSize = 16 ∨
      (AudioClientProperties.mk 12 1 3 0).cbSize = 12) ∧
    (AudioClientProperties.mk 12 1 3 0).bIsOffload ≠ 0 ∧
    (client_SetClientProperties 16 12 ⟨client_render, []⟩ (some ⟨12, 1, 3, 0⟩)).hr
      = AUDCLNT_E_ENDPOINT_OFFLOAD_NOT_CAPABLE ∧
    (client_SetClientProperties 16 12 ⟨client_render, []⟩ (some ⟨12, 1, 3, 0⟩)).world
      = ⟨client_render, []⟩ :=
  ⟨Or.inr rfl, by decide,
    ((SetClientProperties_contract 16 12 ⟨client_render, []⟩ ⟨12, 1, 3, 0⟩).2.1
      (Or.inr rfl)).1 (by decide),
    (SetClientProperties_contract 16 12 ⟨client_render, []⟩ ⟨12, 1, 3, 0⟩).2.2⟩

/-- The scenario of the specification, evaluated with the layout sizes 16 and
12: size 20 is rejected, both layouts are accepted, and the offload flag is
refused. -/
theorem SetClientProperties_scenario :
    (client_SetClientProperties 16 12 ⟨client_new, []⟩ (some ⟨20, 0, 3, 0⟩)).hr
      = E_INVALIDARG ∧
    (client_SetClientProperties 16 12 ⟨client_new, []⟩ (some ⟨16, 0, 3, 0⟩)).hr = S_OK ∧
    (client_SetClientProperties 16 12 ⟨client_new, []⟩ (some ⟨12, 0, 3, 0⟩)).hr = S_OK ∧
    (client_SetClientProperties 16 12 ⟨client_new, []⟩ (some ⟨12, 1, 3, 0⟩)).hr
      = AUDCLNT_E_ENDPOINT_OFFLOAD_NOT_CAPABLE := by
  decide


/-! ### The session wrapper -/

theorem run_requests_append (pre post : List service_request) (w : World) :
    run_requests (pre ++ post) w = run_requests post (run_requests pre w) := by
  induction pre generalizing w with
  | nil => rfl
  | cons q pre ih => simp [run_requests, ih]

theorem is_session_iid_cases (riid : IID) (h : is_session_iid riid = true) :
    riid = IID.IAudioSessionControl ∨ riid = IID.IChannelAudioVolume ∨
      riid = IID.ISimpleAudioVolume := by
  simpa [is_session_iid] using h

/-- A session-level request on a client that has its wrapper: the cached wrapper
gets one more reference and its view is handed out; nothing is created. -/
theorem GetService_session_cached (e : Env) (w : World) (s : stream_handle)
    (sw : audio_session_wrapper) (riid : IID) (old : Option iface)
    (hs : w.This.stream = some s) (hr : is_session_iid riid = true)
    (hw : w.This.session_wrapper = some sw) :
    client_GetService e w riid (some old) =
      ⟨S_OK,
        { w with This := { w.This with session_wrapper := some { sw with ref := sw.ref + 1 } } },
        some (session_iface riid sw.id)⟩ := by
  rcases is_session_iid_cases riid hr with h | h | h <;>
    simp [client_GetService, hs, hw, h, ptr.store, session_view, session_iface,
      session_wrapper_AddRef]

/-- A session-level request on a client without a wrapper, when the wrapper can
be created: it is created, cached, and its view is handed out. -/
theorem GetService_session_new (e : Env) (w : World) (s : stream_handle)
    (sw : audio_session_wrapper) (riid : IID) (old : Option iface)
    (hs : w.This.stream = some s) (hr : is_session_iid riid = true)
    (hw : w.This.session_wrapper = none) (hc : e.session_wrapper_create = some sw) :
    client_GetService e w riid (some old) =
      ⟨S_OK,
        { This := { w.This with session_wrapper := some sw },
          calls := w.calls ++ [Call.session_wrapper_create (some sw)] },
        some (session_iface riid sw.id)⟩ := by
  rcases is_session_iid_cases riid hr with h | h | h <;>
    simp [client_GetService, hs, hw, hc, h, ptr.store, session_view, session_iface]

/-- The four ways in which one request can leave the world: unchanged; with one
more reference on the client; with a `session_wrapper_create` call whose result
is stored; with one more reference on the cached wrapper. -/
theorem GetService_world (e : Env) (w : World) (riid : IID) (ppv : ptr (Option iface)) :
    (client_GetService e w riid ppv).world = w ∨
    (client_GetService e w riid ppv).world = { w with This := IAudioClient3_AddRef w.This } ∨
    (w.This.session_wrapper = none ∧
      (client_GetService e w riid ppv).world =
        { This := { w.This with session_wrapper := e.session_wrapper_create },
          calls := w.calls ++ [Call.session_wrapper_create e.session_wrapper_create] }) ∨
    (∃ sw, w.This.session_wrapper = some sw ∧
      (client_GetService e w riid ppv).world =
        { w with
          This := { w.This with session_wrapper := some (session_wrapper_AddRef sw) } }) := by
  cases ppv with
  | none => exact Or.inl (by simp [client_GetService])
  | some old =>
    cases hs : w.This.stream with
    | none => exact Or.inl (by simp [client_GetService, hs])
    | some s =>
      by_cases h1 : riid = IID.IAudioRenderClient
      · by_cases hd : w.This.dataflow = EDataFlow.eRender
        · exact Or.inr (Or.inl (by simp [client_GetService, hs, h1, hd, render_AddRef]))
        · exact Or.inl (by simp [client_GetService, hs, h1, hd])
      · by_cases h2 : riid = IID.IAudioCaptureClient
        · by_cases hd : w.This.dataflow = EDataFlow.eCapture
          · exact Or.inr (Or.inl (by simp [client_GetService, hs, h2, hd, capture_AddRef]))
          · exact Or.inl (by simp [client_GetService, hs, h2, hd])
        · by_cases h3 : riid = IID.IAudioClock
          · exact Or.inr (Or.inl (by simp [client_GetService, hs, h3, clock_AddRef]))
          · by_cases h4 : riid = IID.IAudioStreamVolume
            · exact Or.inr (Or.inl (by simp [client_GetService, hs, h4, streamvolume_AddRef]))
            · by_cases h5 : riid = IID.IAudioSessionControl ∨ riid = IID.IChannelAudioVolume ∨
                  riid = IID.ISimpleAudioVolume
              · cases hw : w.This.session_wrapper with
                | none =>
                  refine Or.inr (Or.inr (Or.inl ⟨rfl, ?_⟩))
                  cases hc : e.session_wrapper_create <;>
                    simp [client_GetService, hs, h1, h2, h3, h4, h5, hw, hc]
                | some sw =>
                  refine Or.inr (Or.inr (Or.inr ⟨sw, rfl, ?_⟩))
                  simp [client_GetService, hs, h1, h2, h3, h4, h5, hw]
              · exact Or.inl (by simp [client_GetService, hs, h1, h2, h3, h4, h5])

/-- The wrapper account of one request: the number of wrappers created so far
plus the free slot of a client without a wrapper stays the same. -/
theorem GetService_account (e : Env) (w : World) (riid : IID) (ppv : ptr (Option iface)) :
    wrappers_created (client_GetService e w riid ppv).world.calls
        + wrapper_slot (client_GetService e w riid ppv).world
      = wrappers_created w.calls + wrapper_slot w := by
  rcases GetService_world e w riid ppv with h | h | ⟨hw, h⟩ | ⟨sw, hw, h⟩
  · rw [h]
  · rw [h]
    simp [wrapper_slot, IAudioClient3_AddRef]
  · rw [h]
    cases hc : e.session_wrapper_create <;>
      simp [wrapper_slot, hw, wrappers_created, List.countP_append, is_wrapper_created]
  · rw [h]
    simp [wrapper_slot, hw]

/-- A request on a client that has its wrapper keeps the wrapper's identity and
makes no `session_wrapper_create` call. -/
theorem GetService_keeps_wrapper (e : Env) (w : World) (riid : IID)
    (ppv : ptr (Option iface)) (sw : audio_session_wrapper)
    (hw : w.This.session_wrapper = some sw) :
    (∃ sw1, (client_GetService e w riid ppv).world.This.session_wrapper = some sw1 ∧
      sw1.id = sw.id) ∧
    session_wrapper_create_calls (client_GetService e w riid ppv).world.calls
      = session_wrapper_create_calls w.calls := by
  rcases GetService_world e w riid ppv with h | h | ⟨hn, h⟩ | ⟨sw0, hw0, h⟩
  · rw [h]
    exact ⟨⟨sw, hw, rfl⟩, rfl⟩
  · rw [h]
    exact ⟨⟨sw, by simp [IAudioClient3_AddRef, hw], rfl⟩, rfl⟩
  · rw [hw] at hn
    cases hn
  · rw [h]
    rw [hw] at hw0
    cases hw0
    exact ⟨⟨session_wrapper_AddRef sw, rfl, rfl⟩, rfl⟩

theorem run_requests_account (reqs : List service_request) (w : World) :
    wrappers_created (run_requests reqs w).calls + wrapper_slot (run_requests reqs w)
      = wrappers_created w.calls + wrapper_slot w := by
  induction reqs generalizing w with
  | nil => rfl
  | cons q reqs ih =>
    simp only [run_requests]
    rw [ih, GetService_account]

theorem run_requests_keeps_wrapper (reqs : List service_request) (w : World)
    (sw : audio_session_wrapper) (hw : w.This.session_wrapper = some sw) :
    (∃ sw1, (run_requests reqs w).This.session_wrapper = some sw1 ∧ sw1.id = sw.id) ∧
    session_wrapper_create_calls (run_requests reqs w).calls
      = session_wrapper_create_calls w.calls := by
  induction reqs generalizing w sw with
  | nil => exact ⟨⟨sw, hw, rfl⟩, rfl⟩
  | cons q reqs ih =>
    obtain ⟨⟨sw1, h1, h2⟩, h3⟩ := GetService_keeps_wrapper q.env w q.riid q.ppv sw hw
    obtain ⟨⟨sw2, h4, h5⟩, h6⟩ := ih _ sw1 h1
    exact ⟨⟨sw2, h4, h5.trans h2⟩, h6.trans h3⟩


/-- C13: over every finite sequence of `GetService` requests, with arbitrary
outcomes of `session_wrapper_create`, at most one session wrapper is created;
from any point of the sequence at which the client has its wrapper, the rest of
the sequence keeps that same wrapper and makes no further
`session_wrapper_create` call; and on a client whose engine stream is present, a
session-level request with a non-null `ppv` returns `S_OK` with the view of the
wrapper: of the wrapper it creates and caches when there was none, and of the
cached wrapper, whose reference count grows by one, when there was one. -/
theorem session_wrapper_created_at_most_once (reqs : List service_request) (w : World) :
    wrappers_created (run_requests reqs w).calls ≤ wrappers_created w.calls + 1 ∧
    (∀ pre post sw, reqs = pre ++ post →
        (run_requests pre w).This.session_wrapper = some sw →
      (∃ sw1, (run_requests reqs w).This.session_wrapper = some sw1 ∧ sw1.id = sw.id) ∧
      session_wrapper_create_calls (run_requests reqs w).calls
        = session_wrapper_create_calls (run_requests pre w).calls) ∧
    (∀ (e : Env) (w1 : World) (riid : IID) (old : Option iface)
        (sw : audio_session_wrapper),
      w1.This.stream.isSome = true → is_session_iid riid = true →
      (w1.This.session_wrapper = none → e.session_wrapper_create = some sw →
        (client_GetService e w1 riid (some old)).hr = S_OK ∧
        (client_GetService e w1 riid (some old)).out = some (session_iface riid sw.id) ∧
        (client_GetService e w1 riid (some old)).world.This.session_wrapper = some sw ∧
        (client_GetService e w1 riid (some old)).world.calls
          = w1.calls ++ [Call.session_wrapper_create (some sw)]) ∧
      (w1.This.session_wrapper = some sw →
        (client_GetService e w1 riid (some old)).hr = S_OK ∧
        (client_GetService e w1 riid (some old)).out = some (session_iface riid sw.id) ∧
        (client_GetService e w1 riid (some old)).world.This.session_wrapper
          = some { sw with ref := sw.ref + 1 } ∧
        (client_GetService e w1 riid (some old)).world.calls = w1.calls)) := by
  refine ⟨?_, ?_, ?_⟩
  · have hacc := run_requests_account reqs w
    have h1 : wrapper_slot w ≤ 1 := by
      unfold wrapper_slot
      split <;> omega
    omega
  · intro pre post sw hreqs hw
    subst hreqs
    rw [run_requests_append]
    exact run_requests_keeps_wrapper post (run_requests pre w) sw hw
  · intro e w1 riid old sw hs hr
    obtain ⟨s, hs⟩ := Option.isSome_iff_exists.mp hs
    constructor
    · intro hw hc
      rw [GetService_session_new e w1 s sw riid old hs hr hw hc]
      exact ⟨rfl, rfl, rfl, rfl⟩
    · intro hw
      rw [GetService_session_cached e w1 s sw riid old hs hr hw]
      exact ⟨rfl, rfl, rfl, rfl⟩

/-- C13 at the stereo render client and the sequence `requests_ex`: after the
first two requests the wrapper with id 5 is cached, and the remaining two
requests keep it. -/
theorem session_wrapper_created_at_most_once_witness :
    wrappers_created (run_requests requests_ex ⟨client_render, []⟩).calls
      ≤ wrappers_created (World.mk client_render []).calls + 1 ∧
    (∃ sw1, (run_requests requests_ex ⟨client_render, []⟩).This.session_wrapper = some sw1 ∧
      sw1.id = (audio_session_wrapper.mk 5 1).id) ∧
    session_wrapper_create_calls (run_requests requests_ex ⟨client_render, []⟩).calls
      = session_wrapper_create_calls
          (run_requests (requests_ex.take 2) ⟨client_render, []⟩).calls :=
  ⟨(session_wrapper_created_at_most_once requests_ex ⟨client_render, []⟩).1,
    (session_wrapper_created_at_most_once requests_ex ⟨client_render, []⟩).2.1
      (requests_ex.take 2) (requests_ex.drop 2) ⟨5, 1⟩
      (List.take_append_drop 2 requests_ex).symm (by decide)⟩

/-- The sequence `requests_ex`, evaluated: `session_wrapper_create` is called
twice, once in vain, one wrapper is created, and after the two later requests
its reference count is 3. -/
theorem session_wrapper_sequence_evaluated :
    wrappers_created (run_requests requests_ex ⟨client_render, []⟩).calls = 1 ∧
    session_wrapper_create_calls (run_requests requests_ex ⟨client_render, []⟩).calls = 2 ∧
    (run_requests requests_ex ⟨client_render, []⟩).This.session_wrapper = some ⟨5, 3⟩ := by
  decide

/-! ### Buffer operations before initialization -/

/-- C14 (the code at the failing input): on a client that was never initialized,
`render_GetBuffer` with `*data` holding the stale value 9 returns
`AUDCLNT_E_NOT_INITIALIZED` and `*data` still holds 9, which is not null;
`capture_GetBuffer` at the same input returns the same status with `*data`
null. -/
theorem render_GetBuffer_keeps_stale_pointer :
    (World.mk client_new []).This.stream = none ∧
    (render_GetBuffer env_ok ⟨client_new, []⟩ 480 (some (some 9))).hr
      = AUDCLNT_E_NOT_INITIALIZED ∧
    (render_GetBuffer env_ok ⟨client_new, []⟩ 480 (some (some 9))).out = some (some 9) ∧
    (render_GetBuffer env_ok ⟨client_new, []⟩ 480 (some (some 9))).out ≠ some none ∧
    (capture_GetBuffer env_ok ⟨client_new, []⟩ (some (some 9)) (some 0) (some 0) none none).hr
      = AUDCLNT_E_NOT_INITIALIZED ∧
    (capture_GetBuffer env_ok ⟨client_new, []⟩ (some (some 9)) (some 0) (some 0) none
      none).out.data = some none := by
  decide

/-- C15 (counterexample): on a client that was never initialized, render
GetBuffer with a null data pointer, capture GetBuffer with a null frames
pointer and capture GetNextPacketSize with a null frames pointer return
`E_POINTER`, which is not `AUDCLNT_E_NOT_INITIALIZED`. -/
theorem buffer_ops_null_pointer_first :
    (World.mk client_new []).This.stream = none ∧
    (render_GetBuffer env_ok ⟨client_new, []⟩ 480 none).hr = E_POINTER ∧
    (capture_GetBuffer env_ok ⟨client_new, []⟩ (some none) none (some 0) none none).hr
      = E_POINTER ∧
    (capture_GetNextPacketSize env_ok ⟨client_new, []⟩ none).hr = E_POINTER ∧
    E_POINTER ≠ AUDCLNT_E_NOT_INITIALIZED := by
  decide

/-- C15 (amended): with the engine stream absent and for all argument values,
every buffer operation leaves the world as it was, so no engine call is made and
no engine status is returned; it returns `E_POINTER` when one of its required
out-pointers is null (`data` for render GetBuffer; `data`, `frames` or `flags`
for capture GetBuffer; `frames` for capture GetNextPacketSize) and
`AUDCLNT_E_NOT_INITIALIZED` otherwise. -/
theorem buffer_ops_before_initialization (e : Env) (w : World) (h : w.This.stream = none)
    (n written rflags done : Nat) (rdata cdata : ptr (Option BYTE_ptr))
    (cframes pframes : ptr UINT32) (cflags : ptr DWORD) (devpos qpcpos : ptr UINT64) :
    ((render_GetBuffer e w n rdata).hr
        = (if rdata.isNone then E_POINTER else AUDCLNT_E_NOT_INITIALIZED) ∧
      (render_GetBuffer e w n rdata).world = w) ∧
    ((render_ReleaseBuffer e w written rflags).hr = AUDCLNT_E_NOT_INITIALIZED ∧
      (render_ReleaseBuffer e w written rflags).world = w) ∧
    ((capture_GetBuffer e w cdata cframes cflags devpos qpcpos).hr
        = (if cdata.isNone ∨ cframes.isNone ∨ cflags.isNone then E_POINTER
            else AUDCLNT_E_NOT_INITIALIZED) ∧
      (capture_GetBuffer e w cdata cframes cflags devpos qpcpos).world = w) ∧
    ((capture_ReleaseBuffer e w done).hr = AUDCLNT_E_NOT_INITIALIZED ∧
      (capture_ReleaseBuffer e w done).world = w) ∧
    ((capture_GetNextPacketSize e w pframes).hr
        = (if pframes.isNone then E_POINTER else AUDCLNT_E_NOT_INITIALIZED) ∧
      (capture_GetNextPacketSize e w pframes).world = w) := by
  refine ⟨?_, ?_, ?_, ?_, ?_⟩
  · cases rdata <;> simp [render_GetBuffer, h]
  · simp [render_ReleaseBuffer, h]
  · cases cdata <;> cases cframes <;> cases cflags <;> simp [capture_GetBuffer, h]
  · simp [capture_ReleaseBuffer, h]
  · cases pframes <;> simp [capture_GetNextPacketSize, h]

/-- C15 (amended) at a client that was never initialized, with a null `data`
pointer for render GetBuffer and a null `flags` pointer for capture
GetBuffer. -/
theorem buffer_ops_before_initialization_witness :
    (World.mk client_new []).This.stream = none ∧
    ((render_GetBuffer env_ok ⟨client_new, []⟩ 480 none).hr
        = (if (none : ptr (Option BYTE_ptr)).isNone then E_POINTER
            else AUDCLNT_E_NOT_INITIALIZED) ∧
      (render_GetBuffer env_ok ⟨client_new, []⟩ 480 none).world = ⟨client_new, []⟩) ∧
    ((render_ReleaseBuffer env_ok ⟨client_new, []⟩ 480 0).hr = AUDCLNT_E_NOT_INITIALIZED ∧
      (render_ReleaseBuffer env_ok ⟨client_new, []⟩ 480 0).world = ⟨client_new, []⟩) ∧
    ((capture_GetBuffer env_ok ⟨client_new, []⟩ (some (some 9)) (some 0) none none none).hr
        = (if (some (some 9) : ptr (Option BYTE_ptr)).isNone ∨ (some 0 : ptr UINT32).isNone ∨
              (none : ptr DWORD).isNone then E_POINTER
            else AUDCLNT_E_NOT_INITIALIZED) ∧
      (capture_GetBuffer env_ok ⟨client_new, []⟩ (some (some 9)) (some 0) none none
        none).world = ⟨client_new, []⟩) ∧
    ((capture_ReleaseBuffer env_ok ⟨client_new, []⟩ 480).hr = AUDCLNT_E_NOT_INITIALIZED ∧
      (capture_ReleaseBuffer env_ok ⟨client_new, []⟩ 480).world = ⟨client_new, []⟩) ∧
    ((capture_GetNextPacketSize env_ok ⟨client_new, []⟩ (some 0)).hr
        = (if (some 0 : ptr UINT32).isNone then E_POINTER else AUDCLNT_E_NOT_INITIALIZED) ∧
      (capture_GetNextPacketSize env_ok ⟨client_new, []⟩ (some 0)).world
        = ⟨client_new, []⟩) :=
  ⟨rfl, buffer_ops_before_initialization env_ok ⟨client_new, []⟩ rfl 480 480 0 480 none
    (some (some 9)) (some 0) (some 0) none none none⟩

/-! ### Format negotiation -/

/-- With a null `out`, `client_IsFormatSupported` has a defined result exactly
when the engine does not answer `S_FALSE`: then it returns the engine status and
the pointer stays null; when the engine answers `S_FALSE` the store `*out = ...`
is reached with `out` null. -/
theorem IsFormatSupported_null_out (e : Env) (w : World) (mode : AUDCLNT_SHAREMODE)
    (fmt : ptr WAVEFORMATEX) :
    ((e.is_format_supported
        { device := w.This.device_name, flow := w.This.dataflow, share := mode,
          fmt_in := fmt, fmt_out := none }).result = S_FALSE →
      client_IsFormatSupported e w mode fmt none = none) ∧
    ((e.is_format_supported
        { device := w.This.device_name, flow := w.This.dataflow, share := mode,
          fmt_in := fmt, fmt_out := none }).result ≠ S_FALSE →
      ∃ r, client_IsFormatSupported e w mode fmt none = some r ∧ r.out = none ∧
        r.hr = (e.is_format_supported
          { device := w.This.device_name, flow := w.This.dataflow, share := mode,
            fmt_in := fmt, fmt_out := none }).result) := by
  constructor
  · intro h
    simp [client_IsFormatSupported, h, ptr.write]
  · intro h
    simp [client_IsFormatSupported, h]

/-- C16 (the code at the failing input): on the stereo render client, with a
null `out` and the engine answering `S_FALSE`, `client_IsFormatSupported` has
no defined result in either share mode, because the store `*out = ...` is
reached with `out` null; with a non-null `out` the same call returns
`S_FALSE`. -/
theorem IsFormatSupported_writes_through_null :
    (client_IsFormatSupported env_closest ⟨client_render, []⟩ AUDCLNT_SHAREMODE_EXCLUSIVE
      (some fmt_ex) none).isNone = true ∧
    (client_IsFormatSupported env_closest ⟨client_render, []⟩ AUDCLNT_SHAREMODE_SHARED
      (some fmt_ex) none).isNone = true ∧
    (client_IsFormatSupported env_closest ⟨client_render, []⟩ AUDCLNT_SHAREMODE_SHARED
      (some fmt_ex) (some none)).map (fun r => r.hr) = some S_FALSE := by
  decide

end MMDevAPI
